import Mathlib

/-!
Alternative selector of the cluster autoscaler.

A shallow embedding of
`cluster-autoscaler/expander/alternatives/alternatives.go` and the properties
of it that the specification states.

Modelling conventions.

* A Go `map[string]T` is an association list read with `List.lookup`; the nil
  map is `[]`.  A Go slice is a `List`; the nil slice is `[]`.
* A Go `error` is the text of its message; a `(value, error)` result of the
  parser is an `Except String`.
* The selector is a state that is passed explicitly.  `logRecorder` and klog
  are external sinks: the state keeps what each one has received, oldest first.
* `configMapLister` is a reference to a live store whose content can change
  between two calls: every call takes the answer the lister gives at that time.
* `yaml.Unmarshal` is a library function: it is a parameter `unmarshal` of the
  parser, giving for a text either the decoded map or the message of its error.
* `reloadConfigMap` and the two public operations are written once with the
  parser method as a parameter (`...With`) and then closed with
  `parseAlternativesYAMLString`, so that a result can be shown not to depend
  on the parser.
* The counters are Go `int`s: integers kept in the range of the type by
  `wrapInt`, which reduces modulo `2 ^ bits`; the width `bits` of `int` (32 or
  64 with the platform) is the class `IntWidth`, so every general statement
  holds for each width.
-/

/-! ## Collaborating types -/

namespace cloudprovider

/-- The part of `cloudprovider.NodeGroup` that the selector reads: the value
returned by `Id()`. -/
structure NodeGroup where
  Id : String
  deriving DecidableEq, Repr

end cloudprovider

namespace expander

/-- An `expander.Option`: the node group it would grow, with the data that
tells two options for one node group apart. -/
structure Option where
  NodeGroup : cloudprovider.NodeGroup
  NodeCount : Int
  Debug : String
  deriving DecidableEq, Repr

end expander

namespace apiv1

/-- The part of `apiv1.ConfigMap` that the selector reads or hands on: its
name and its `Data`. -/
structure ConfigMap where
  Name : String
  Data : List (String × String)
  deriving DecidableEq, Repr

/-- The constant `apiv1.EventTypeWarning`. -/
def EventTypeWarning : String := "Warning"

end apiv1

namespace record

/-- One call `Event(object, eventtype, reason, message)` received by a
`record.EventRecorder`. -/
structure Event where
  object : apiv1.ConfigMap
  eventtype : String
  reason : String
  message : String
  deriving DecidableEq, Repr

end record

namespace klog

/-- One line handed to klog: `klog.Warning(msg)`, or `klog.V(4).Info(msg)`,
which klog writes only when its verbosity is 4 or more. -/
inductive Line where
  | Warning (msg : String)
  | V4Info (msg : String)
  deriving DecidableEq, Repr

end klog

/-- The answer of `configMapLister.Get`, as a function of the name asked for:
the ConfigMap, or the message of the error. -/
abbrev ConfigMapLister := String → Except String apiv1.ConfigMap

/-! ## The package `alternatives` -/

/-- The name of the ConfigMap used to store the alternatives configuration. -/
def AlternativesConfigMapName : String := "cluster-autoscaler-alternative-selector"

/-- The key used in the ConfigMap to configure alternatives. -/
def AlternativesConfigMapKey : String := "alternatives"

/-- The type `alternatives`, a `map[string][]string`. -/
abbrev alternatives := List (String × List String)

/-- The library function `yaml.Unmarshal` into a `map[string][]string`. -/
abbrev Unmarshal := String → Except String alternatives

/-! ### The Go type `int` -/

/-- The width in bits of the Go type `int` on the platform the program is
built for. -/
class IntWidth where
  bits : Nat

/-- Half the number of values of `int`: `2 ^ (bits - 1)`. -/
def intHalf [IntWidth] : Nat := 2 ^ (IntWidth.bits - 1)

/-- The largest value of `int`. -/
def maxInt [IntWidth] : Int := (intHalf : Int) - 1

/-- The smallest value of `int`. -/
def minInt [IntWidth] : Int := -(intHalf : Int)

/-- The value of `int` that the integer `x` wraps to: `x` modulo `2 ^ bits`,
taken in the range from `minInt` to `maxInt`. -/
def wrapInt [IntWidth] (x : Int) : Int :=
  (x + (intHalf : Int)) % (2 * (intHalf : Int)) - (intHalf : Int)

/-- The integer `x` is a value of `int`. -/
def isInt [IntWidth] (x : Int) : Prop := minInt ≤ x ∧ x ≤ maxInt

instance isInt.decidable [IntWidth] (x : Int) : Decidable (isInt x) :=
  inferInstanceAs (Decidable (minInt ≤ x ∧ x ≤ maxInt))

/-- The struct `alternativeSelector`: what the recorder has received, the two
counters, which are values of `int` and are wrapped by `wrapInt` at each
increment, and what klog has received. -/
structure alternativeSelector where
  logRecorder : List record.Event
  okConfigUpdates : Int
  badConfigUpdates : Int
  klogLines : List klog.Line
  deriving DecidableEq, Repr

/-- `NewSelector`: both counters start at zero. -/
def NewSelector (logRecorder : List record.Event) (klogLines : List klog.Line) :
    alternativeSelector :=
  { logRecorder := logRecorder, okConfigUpdates := 0, badConfigUpdates := 0,
    klogLines := klogLines }

/-- The method `logConfigWarning`. -/
def logConfigWarning [IntWidth] (p : alternativeSelector) (cm : apiv1.ConfigMap)
    (reason msg : String) : alternativeSelector :=
  { p with
    logRecorder := p.logRecorder ++ [⟨cm, apiv1.EventTypeWarning, reason, msg⟩]
    klogLines := p.klogLines ++ [klog.Line.Warning msg]
    badConfigUpdates := wrapInt (p.badConfigUpdates + 1) }

/-- The error returned by the parser for the empty text. -/
def emptyConfigError : String :=
  "alternatives configuration in " ++ AlternativesConfigMapName ++
    " configmap is empty; please provide valid configuration"

/-- The error returned by the parser when `yaml.Unmarshal` fails with `err`. -/
def malformedConfigError (err : String) : String :=
  "Can't parse YAML with alternatives in the configmap: " ++ err

/-- The method `parseAlternativesYAMLString`: the result and the selector
after the call. -/
def parseAlternativesYAMLString [IntWidth] (unmarshal : Unmarshal) (p : alternativeSelector)
    (alternativesYAML : String) : Except String alternatives × alternativeSelector :=
  if alternativesYAML = "" then
    (Except.error emptyConfigError, p)
  else
    match unmarshal alternativesYAML with
    | Except.error err => (Except.error (malformedConfigError err), p)
    | Except.ok newAlternatives =>
      (Except.ok newAlternatives,
        { p with
          okConfigUpdates := wrapInt (p.okConfigUpdates + 1)
          klogLines := p.klogLines ++
            [klog.Line.V4Info "Successfully loaded alternatives configuration from configmap."] })

/-- A parser as a method of the selector: the result and the selector after. -/
abbrev ParserMethod :=
  alternativeSelector → String → Except String alternatives × alternativeSelector

/-- The error of `reloadConfigMap` when the lister fails with `err`. -/
def notFoundError (err : String) : String :=
  "Alternatives config map " ++ AlternativesConfigMapName ++ " not found: " ++ err

/-- The message of the warning raised for the parse error `err`. -/
def wrongConfigMessage (err : String) : String :=
  "Wrong configuration for alternatives in alternatives selector: " ++ err ++
    ". Ignoring update."

/-- The body of `reloadConfigMap`, with the parser it calls as a parameter:
the triple `(alternatives, cm, err)` it returns and the selector after. -/
def reloadConfigMapWith [IntWidth] (parse : ParserMethod) (lister : ConfigMapLister)
    (p : alternativeSelector) :
    (alternatives × Option apiv1.ConfigMap × Option String) × alternativeSelector :=
  match lister AlternativesConfigMapName with
  | Except.error err => (([], none, some (notFoundError err)), p)
  | Except.ok cm =>
    match cm.Data.lookup AlternativesConfigMapKey with
    | none => (([], some cm, none), p)
    | some altString =>
      match parse p altString with
      | (Except.error err, p1) =>
        (([], some cm, some err),
          logConfigWarning p1 cm "AlternativesConfigMapInvalid" (wrongConfigMessage err))
      | (Except.ok newAlternatives, p1) => ((newAlternatives, some cm, none), p1)

/-- The inner loop of `GetAlternativeOptions`: the first option of `options`
whose node group is `alt` is appended to `opts`, and the loop breaks. -/
def scanOptions (alt : String) :
    List expander.Option → List expander.Option → List expander.Option
  | [], opts => opts
  | opt :: rest, opts =>
    if opt.NodeGroup.Id = alt then opts ++ [opt] else scanOptions alt rest opts

/-- The body of `GetAlternativeOptions`, with the parser as a parameter. -/
def GetAlternativeOptionsWith [IntWidth] (parse : ParserMethod) (lister : ConfigMapLister)
    (as : alternativeSelector) (options : List expander.Option)
    (best : Option expander.Option) : List expander.Option × alternativeSelector :=
  match reloadConfigMapWith parse lister as with
  | ((_, _, some _), as1) => ([], as1)
  | ((alts, _, none), as1) =>
    match best with
    | none => ([], as1)
    | some b =>
      match alts.lookup b.NodeGroup.Id with
      | none => ([], as1)
      | some alternative =>
        (alternative.foldl (fun opts alt => scanOptions alt options opts) [], as1)

/-- The body of `GetAlternativeNodeGroups`, with the parser as a parameter. -/
def GetAlternativeNodeGroupsWith [IntWidth] (parse : ParserMethod) (lister : ConfigMapLister)
    (as : alternativeSelector) (nodeGroup : String) : List String × alternativeSelector :=
  match reloadConfigMapWith parse lister as with
  | ((_, _, some _), as1) => ([], as1)
  | ((alts, _, none), as1) => ((alts.lookup nodeGroup).getD [], as1)

/-- The method `reloadConfigMap`. -/
def reloadConfigMap [IntWidth] (unmarshal : Unmarshal) (lister : ConfigMapLister)
    (p : alternativeSelector) :
    (alternatives × Option apiv1.ConfigMap × Option String) × alternativeSelector :=
  reloadConfigMapWith (parseAlternativesYAMLString unmarshal) lister p

/-- The method `GetAlternativeOptions`. -/
def GetAlternativeOptions [IntWidth] (unmarshal : Unmarshal) (lister : ConfigMapLister)
    (as : alternativeSelector) (options : List expander.Option)
    (best : Option expander.Option) : List expander.Option × alternativeSelector :=
  GetAlternativeOptionsWith (parseAlternativesYAMLString unmarshal) lister as options best

/-- The method `GetAlternativeNodeGroups`. -/
def GetAlternativeNodeGroups [IntWidth] (unmarshal : Unmarshal) (lister : ConfigMapLister)
    (as : alternativeSelector) (nodeGroup : String) : List String × alternativeSelector :=
  GetAlternativeNodeGroupsWith (parseAlternativesYAMLString unmarshal) lister as nodeGroup

/-! ## Sequences of calls -/

/-- A call of one of the two public operations, with its arguments. -/
inductive Call where
  | getAlternativeOptions (options : List expander.Option) (best : Option expander.Option)
  | getAlternativeNodeGroups (nodeGroup : String)
  deriving DecidableEq, Repr

/-- The selector after one call made while the lister answers `lister`. -/
def Call.run [IntWidth] (unmarshal : Unmarshal) (lister : ConfigMapLister) (as : alternativeSelector) :
    Call → alternativeSelector
  | Call.getAlternativeOptions options best =>
    (GetAlternativeOptions unmarshal lister as options best).2
  | Call.getAlternativeNodeGroups nodeGroup =>
    (GetAlternativeNodeGroups unmarshal lister as nodeGroup).2

/-- The selector after a sequence of calls, each with the answer of the lister
at the time of that call. -/
def runCalls [IntWidth] (unmarshal : Unmarshal) (as : alternativeSelector) :
    List (ConfigMapLister × Call) → alternativeSelector
  | [] => as
  | (lister, call) :: rest => runCalls unmarshal (call.run unmarshal lister as) rest

/-- The selector after the first `k` calls of a sequence made on a freshly
constructed selector. -/
def selectorAfter [IntWidth] (unmarshal : Unmarshal) (logRecorder : List record.Event)
    (klogLines : List klog.Line) (calls : List (ConfigMapLister × Call)) (k : Nat) :
    alternativeSelector :=
  runCalls unmarshal (NewSelector logRecorder klogLines) (calls.take k)

/-! ## The words of the specification -/

/-- The walk of the specification: for each identifier of `L`, in order, the
first option of `options` with that group identifier, when there is one. -/
def firstMatches (L : List String) (options : List expander.Option) : List expander.Option :=
  L.filterMap (fun a => options.find? (fun o => o.NodeGroup.Id == a))

/-- The state of the stored configuration seen by one call. -/
inductive ConfigState where
  | objectMissing (err : String)
  | keyAbsent (cm : apiv1.ConfigMap)
  | parseFailed (cm : apiv1.ConfigMap) (err : String)
  | loaded (cm : apiv1.ConfigMap) (m : alternatives)
  deriving DecidableEq, Repr

/-- The state of the stored configuration under a lister: the object is
missing, or it lacks the key, or the text under the key is empty or malformed,
or the text is well-formed. -/
def configState (unmarshal : Unmarshal) (lister : ConfigMapLister) : ConfigState :=
  match lister AlternativesConfigMapName with
  | Except.error err => ConfigState.objectMissing err
  | Except.ok cm =>
    match cm.Data.lookup AlternativesConfigMapKey with
    | none => ConfigState.keyAbsent cm
    | some raw =>
      if raw = "" then ConfigState.parseFailed cm emptyConfigError
      else
        match unmarshal raw with
        | Except.error err => ConfigState.parseFailed cm (malformedConfigError err)
        | Except.ok m => ConfigState.loaded cm m

/-- The configuration text was present and parsed successfully. -/
def ConfigState.isLoaded : ConfigState → Bool
  | ConfigState.loaded _ _ => true
  | _ => false

/-- The configuration text was present and failed to parse. -/
def ConfigState.isParseFailed : ConfigState → Bool
  | ConfigState.parseFailed _ _ => true
  | _ => false

/-! ## Concrete data for the instances -/

/-- The platform of the instances: `int` has 64 bits. -/
instance intWidth64 : IntWidth := ⟨64⟩

/-- A platform on which `int` has 32 bits. -/
def intWidth32 : IntWidth := ⟨32⟩

/-- A deserializer for the instances below.  It decodes three well-formed
texts to the maps they denote and rejects the unclosed flow sequence of the
specification, with a message that stands for the one of the library; any
other text is outside its table and is rejected too. -/
def yamlTable : Unmarshal := fun raw =>
  if raw = "A: [B, C]" then Except.ok [("A", ["B", "C"])]
  else if raw = "A: [X]" then Except.ok [("A", ["X"])]
  else if raw = "A: [B, B]" then Except.ok [("A", ["B", "B"])]
  else if raw = "not: [valid, yaml: broken" then
    Except.error "yaml: line 1: did not find expected ',' or ']'"
  else Except.error "yaml: text outside the table"

/-- A ConfigMap holding `text` under the alternatives key. -/
def cmWith (text : String) : apiv1.ConfigMap :=
  { Name := AlternativesConfigMapName, Data := [(AlternativesConfigMapKey, text)] }

/-- A ConfigMap without the alternatives key. -/
def cmNoKey : apiv1.ConfigMap :=
  { Name := AlternativesConfigMapName, Data := [("other", "A: [B, C]")] }

/-- A lister that knows the ConfigMap `cm` under its name and nothing else. -/
def listerOf (cm : apiv1.ConfigMap) : ConfigMapLister := fun name =>
  if name = cm.Name then Except.ok cm else Except.error "configmap not found"

/-- A lister that knows no ConfigMap. -/
def listerEmpty : ConfigMapLister := fun _ => Except.error "configmap not found"

/-- An option for the node group `id`. -/
def opt (id : String) (count : Int) : expander.Option :=
  { NodeGroup := { Id := id }, NodeCount := count, Debug := "" }

/-- A freshly constructed selector. -/
def sel0 : alternativeSelector := NewSelector [] []

/-! ## Lemmas on the Go type `int` -/

theorem intHalf_pos [IntWidth] : (0 : Int) < (intHalf : Int) := by
  have h : 0 < (2 : Nat) ^ (IntWidth.bits - 1) := by positivity
  unfold intHalf
  exact_mod_cast h

theorem wrapInt_of_isInt [IntWidth] (x : Int) (hx : isInt x) : wrapInt x = x := by
  obtain ⟨h1, h2⟩ := hx
  unfold minInt at h1
  unfold maxInt at h2
  unfold wrapInt
  rw [Int.emod_eq_of_lt (by omega) (by omega)]
  omega

theorem wrapInt_succ [IntWidth] (x : Int) (hx : isInt x) (hmax : x ≠ maxInt) :
    wrapInt (x + 1) = x + 1 := by
  apply wrapInt_of_isInt
  obtain ⟨h1, h2⟩ := hx
  exact ⟨by omega, by omega⟩

theorem wrapInt_maxInt_succ [IntWidth] : wrapInt (maxInt + 1) = minInt := by
  unfold wrapInt maxInt minInt
  have h : (intHalf : Int) - 1 + 1 + (intHalf : Int) = 2 * (intHalf : Int) := by ring
  rw [h, Int.emod_self]
  ring

theorem isInt_wrapInt [IntWidth] (x : Int) : isInt (wrapInt x) := by
  have hpos := intHalf_pos
  have h1 := Int.emod_nonneg (x + (intHalf : Int))
    (show (2 * (intHalf : Int)) ≠ 0 by omega)
  have h2 := Int.emod_lt_of_pos (x + (intHalf : Int))
    (show (0 : Int) < 2 * (intHalf : Int) by omega)
  unfold isInt wrapInt minInt maxInt
  constructor <;> omega

theorem isInt_zero [IntWidth] : isInt 0 := by
  have hpos := intHalf_pos
  unfold isInt minInt maxInt
  constructor <;> omega

theorem isInt_maxInt [IntWidth] : isInt maxInt := by
  have hpos := intHalf_pos
  unfold isInt minInt maxInt
  constructor <;> omega

/-! ## Lemmas on the parser and on `reloadConfigMap` -/

theorem parse_empty [IntWidth] (unmarshal : Unmarshal) (p : alternativeSelector) :
    parseAlternativesYAMLString unmarshal p "" = (Except.error emptyConfigError, p) := by
  simp [parseAlternativesYAMLString]

theorem parse_unmarshal_error [IntWidth] (unmarshal : Unmarshal) (p : alternativeSelector) (raw err : String)
    (hne : raw ≠ "") (hu : unmarshal raw = Except.error err) :
    parseAlternativesYAMLString unmarshal p raw = (Except.error (malformedConfigError err), p) := by
  simp [parseAlternativesYAMLString, hne, hu]

theorem parse_unmarshal_ok [IntWidth] (unmarshal : Unmarshal) (p : alternativeSelector) (raw : String)
    (m : alternatives) (hne : raw ≠ "") (hu : unmarshal raw = Except.ok m) :
    parseAlternativesYAMLString unmarshal p raw =
      (Except.ok m,
        { p with
          okConfigUpdates := wrapInt (p.okConfigUpdates + 1)
          klogLines := p.klogLines ++
            [klog.Line.V4Info "Successfully loaded alternatives configuration from configmap."] }) := by
  simp [parseAlternativesYAMLString, hne, hu]

theorem parse_ok_iff [IntWidth] (unmarshal : Unmarshal) (p : alternativeSelector) (raw : String)
    (m : alternatives) :
    (parseAlternativesYAMLString unmarshal p raw).1 = Except.ok m ↔
      raw ≠ "" ∧ unmarshal raw = Except.ok m := by
  unfold parseAlternativesYAMLString
  by_cases hne : raw = ""
  · simp [hne]
  · cases hu : unmarshal raw <;> simp [hne]

theorem parse_error_iff [IntWidth] (unmarshal : Unmarshal) (p : alternativeSelector) (raw err : String) :
    (parseAlternativesYAMLString unmarshal p raw).1 = Except.error err ↔
      (raw = "" ∧ err = emptyConfigError) ∨
        (raw ≠ "" ∧ ∃ e, unmarshal raw = Except.error e ∧ err = malformedConfigError e) := by
  unfold parseAlternativesYAMLString
  by_cases hne : raw = ""
  · simp [hne, eq_comm]
  · cases hu : unmarshal raw <;> simp [hne, eq_comm]

theorem reloadWith_missing [IntWidth] (parse : ParserMethod) (lister : ConfigMapLister)
    (p : alternativeSelector) (err : String)
    (hget : lister AlternativesConfigMapName = Except.error err) :
    reloadConfigMapWith parse lister p = (([], none, some (notFoundError err)), p) := by
  simp [reloadConfigMapWith, hget]

theorem reloadWith_keyAbsent [IntWidth] (parse : ParserMethod) (lister : ConfigMapLister)
    (p : alternativeSelector) (cm : apiv1.ConfigMap)
    (hget : lister AlternativesConfigMapName = Except.ok cm)
    (hkey : cm.Data.lookup AlternativesConfigMapKey = none) :
    reloadConfigMapWith parse lister p = (([], some cm, none), p) := by
  simp [reloadConfigMapWith, hget, hkey]

theorem reload_parseError [IntWidth] (unmarshal : Unmarshal) (lister : ConfigMapLister)
    (p : alternativeSelector) (cm : apiv1.ConfigMap) (raw err : String)
    (hget : lister AlternativesConfigMapName = Except.ok cm)
    (hkey : cm.Data.lookup AlternativesConfigMapKey = some raw)
    (hparse : (parseAlternativesYAMLString unmarshal p raw).1 = Except.error err) :
    reloadConfigMap unmarshal lister p =
      (([], some cm, some err),
        logConfigWarning p cm "AlternativesConfigMapInvalid" (wrongConfigMessage err)) := by
  rcases (parse_error_iff unmarshal p raw err).1 hparse with ⟨h1, h2⟩ | ⟨h1, e, h2, h3⟩
  · subst h1; subst h2
    simp [reloadConfigMap, reloadConfigMapWith, hget, hkey, parse_empty]
  · subst h3
    simp [reloadConfigMap, reloadConfigMapWith, hget, hkey,
      parse_unmarshal_error unmarshal p raw e h1 h2]

theorem reload_parseOk [IntWidth] (unmarshal : Unmarshal) (lister : ConfigMapLister)
    (p : alternativeSelector) (cm : apiv1.ConfigMap) (raw : String) (m : alternatives)
    (hget : lister AlternativesConfigMapName = Except.ok cm)
    (hkey : cm.Data.lookup AlternativesConfigMapKey = some raw)
    (hparse : (parseAlternativesYAMLString unmarshal p raw).1 = Except.ok m) :
    reloadConfigMap unmarshal lister p =
      ((m, some cm, none),
        { p with
          okConfigUpdates := wrapInt (p.okConfigUpdates + 1)
          klogLines := p.klogLines ++
            [klog.Line.V4Info "Successfully loaded alternatives configuration from configmap."] }) := by
  obtain ⟨h1, h2⟩ := (parse_ok_iff unmarshal p raw m).1 hparse
  simp [reloadConfigMap, reloadConfigMapWith, hget, hkey,
    parse_unmarshal_ok unmarshal p raw m h1 h2]

/-! ## Lemmas on the two loops -/

theorem scanOptions_eq (alt : String) (options opts : List expander.Option) :
    scanOptions alt options opts =
      opts ++ (options.find? (fun o => o.NodeGroup.Id == alt)).toList := by
  induction options with
  | nil => simp [scanOptions]
  | cons o rest ih =>
    by_cases h : o.NodeGroup.Id = alt
    · simp [scanOptions, h, List.find?_cons]
    · have hb : (o.NodeGroup.Id == alt) = false := by simpa using h
      simp [scanOptions, h, List.find?_cons, hb, ih]

theorem foldl_scanOptions (L : List String) (options acc : List expander.Option) :
    L.foldl (fun opts alt => scanOptions alt options opts) acc =
      acc ++ firstMatches L options := by
  induction L generalizing acc with
  | nil => simp [firstMatches]
  | cons a L ih =>
    rw [List.foldl_cons, ih, scanOptions_eq]
    cases hf : options.find? (fun o => o.NodeGroup.Id == a) <;>
      simp [firstMatches, List.filterMap_cons, hf]

/-! ## The public operations in each state of the stored configuration -/

theorem reload_missing [IntWidth] (unmarshal : Unmarshal) (lister : ConfigMapLister)
    (p : alternativeSelector) (err : String)
    (hget : lister AlternativesConfigMapName = Except.error err) :
    reloadConfigMap unmarshal lister p = (([], none, some (notFoundError err)), p) :=
  reloadWith_missing _ lister p err hget

theorem reload_keyAbsent [IntWidth] (unmarshal : Unmarshal) (lister : ConfigMapLister)
    (p : alternativeSelector) (cm : apiv1.ConfigMap)
    (hget : lister AlternativesConfigMapName = Except.ok cm)
    (hkey : cm.Data.lookup AlternativesConfigMapKey = none) :
    reloadConfigMap unmarshal lister p = (([], some cm, none), p) :=
  reloadWith_keyAbsent _ lister p cm hget hkey

theorem options_of_reload [IntWidth] (unmarshal : Unmarshal) (lister : ConfigMapLister)
    (as : alternativeSelector) (options : List expander.Option)
    (best : Option expander.Option) :
    GetAlternativeOptions unmarshal lister as options best =
      match reloadConfigMap unmarshal lister as with
      | ((_, _, some _), as1) => ([], as1)
      | ((alts, _, none), as1) =>
        match best with
        | none => ([], as1)
        | some b =>
          match alts.lookup b.NodeGroup.Id with
          | none => ([], as1)
          | some alternative =>
            (alternative.foldl (fun opts alt => scanOptions alt options opts) [], as1) :=
  rfl

theorem nodeGroups_of_reload [IntWidth] (unmarshal : Unmarshal) (lister : ConfigMapLister)
    (as : alternativeSelector) (nodeGroup : String) :
    GetAlternativeNodeGroups unmarshal lister as nodeGroup =
      match reloadConfigMap unmarshal lister as with
      | ((_, _, some _), as1) => ([], as1)
      | ((alts, _, none), as1) => ((alts.lookup nodeGroup).getD [], as1) :=
  rfl

theorem options_missing [IntWidth] (unmarshal : Unmarshal) (lister : ConfigMapLister)
    (as : alternativeSelector) (options : List expander.Option)
    (best : Option expander.Option) (err : String)
    (hget : lister AlternativesConfigMapName = Except.error err) :
    GetAlternativeOptions unmarshal lister as options best = ([], as) := by
  rw [options_of_reload, reload_missing unmarshal lister as err hget]

theorem options_keyAbsent [IntWidth] (unmarshal : Unmarshal) (lister : ConfigMapLister)
    (as : alternativeSelector) (options : List expander.Option)
    (best : Option expander.Option) (cm : apiv1.ConfigMap)
    (hget : lister AlternativesConfigMapName = Except.ok cm)
    (hkey : cm.Data.lookup AlternativesConfigMapKey = none) :
    GetAlternativeOptions unmarshal lister as options best = ([], as) := by
  rw [options_of_reload, reload_keyAbsent unmarshal lister as cm hget hkey]
  cases best <;> simp

theorem options_parseError [IntWidth] (unmarshal : Unmarshal) (lister : ConfigMapLister)
    (as : alternativeSelector) (options : List expander.Option)
    (best : Option expander.Option) (cm : apiv1.ConfigMap) (raw err : String)
    (hget : lister AlternativesConfigMapName = Except.ok cm)
    (hkey : cm.Data.lookup AlternativesConfigMapKey = some raw)
    (hparse : (parseAlternativesYAMLString unmarshal as raw).1 = Except.error err) :
    GetAlternativeOptions unmarshal lister as options best =
      ([], logConfigWarning as cm "AlternativesConfigMapInvalid" (wrongConfigMessage err)) := by
  rw [options_of_reload, reload_parseError unmarshal lister as cm raw err hget hkey hparse]

theorem options_parseOk [IntWidth] (unmarshal : Unmarshal) (lister : ConfigMapLister)
    (as : alternativeSelector) (options : List expander.Option)
    (best : Option expander.Option) (cm : apiv1.ConfigMap) (raw : String) (m : alternatives)
    (hget : lister AlternativesConfigMapName = Except.ok cm)
    (hkey : cm.Data.lookup AlternativesConfigMapKey = some raw)
    (hparse : (parseAlternativesYAMLString unmarshal as raw).1 = Except.ok m) :
    GetAlternativeOptions unmarshal lister as options best =
      (match best with
        | none => []
        | some b =>
          match m.lookup b.NodeGroup.Id with
          | none => []
          | some L => firstMatches L options,
        { as with
          okConfigUpdates := wrapInt (as.okConfigUpdates + 1)
          klogLines := as.klogLines ++
            [klog.Line.V4Info "Successfully loaded alternatives configuration from configmap."] }) := by
  rw [options_of_reload, reload_parseOk unmarshal lister as cm raw m hget hkey hparse]
  cases best with
  | none => rfl
  | some b =>
    cases hL : m.lookup b.NodeGroup.Id with
    | none => simp [hL]
    | some L => simp [hL, foldl_scanOptions]

theorem nodeGroups_missing [IntWidth] (unmarshal : Unmarshal) (lister : ConfigMapLister)
    (as : alternativeSelector) (nodeGroup err : String)
    (hget : lister AlternativesConfigMapName = Except.error err) :
    GetAlternativeNodeGroups unmarshal lister as nodeGroup = ([], as) := by
  rw [nodeGroups_of_reload, reload_missing unmarshal lister as err hget]

theorem nodeGroups_keyAbsent [IntWidth] (unmarshal : Unmarshal) (lister : ConfigMapLister)
    (as : alternativeSelector) (nodeGroup : String) (cm : apiv1.ConfigMap)
    (hget : lister AlternativesConfigMapName = Except.ok cm)
    (hkey : cm.Data.lookup AlternativesConfigMapKey = none) :
    GetAlternativeNodeGroups unmarshal lister as nodeGroup = ([], as) := by
  rw [nodeGroups_of_reload, reload_keyAbsent unmarshal lister as cm hget hkey]
  simp

theorem nodeGroups_parseError [IntWidth] (unmarshal : Unmarshal) (lister : ConfigMapLister)
    (as : alternativeSelector) (nodeGroup : String) (cm : apiv1.ConfigMap) (raw err : String)
    (hget : lister AlternativesConfigMapName = Except.ok cm)
    (hkey : cm.Data.lookup AlternativesConfigMapKey = some raw)
    (hparse : (parseAlternativesYAMLString unmarshal as raw).1 = Except.error err) :
    GetAlternativeNodeGroups unmarshal lister as nodeGroup =
      ([], logConfigWarning as cm "AlternativesConfigMapInvalid" (wrongConfigMessage err)) := by
  rw [nodeGroups_of_reload, reload_parseError unmarshal lister as cm raw err hget hkey hparse]

theorem nodeGroups_parseOk [IntWidth] (unmarshal : Unmarshal) (lister : ConfigMapLister)
    (as : alternativeSelector) (nodeGroup : String) (cm : apiv1.ConfigMap) (raw : String)
    (m : alternatives)
    (hget : lister AlternativesConfigMapName = Except.ok cm)
    (hkey : cm.Data.lookup AlternativesConfigMapKey = some raw)
    (hparse : (parseAlternativesYAMLString unmarshal as raw).1 = Except.ok m) :
    GetAlternativeNodeGroups unmarshal lister as nodeGroup =
      ((m.lookup nodeGroup).getD [],
        { as with
          okConfigUpdates := wrapInt (as.okConfigUpdates + 1)
          klogLines := as.klogLines ++
            [klog.Line.V4Info "Successfully loaded alternatives configuration from configmap."] }) := by
  rw [nodeGroups_of_reload, reload_parseOk unmarshal lister as cm raw m hget hkey hparse]

/-- The parser always returns a mapping or an error. -/
theorem parse_cases [IntWidth] (unmarshal : Unmarshal) (p : alternativeSelector) (raw : String) :
    (∃ err, (parseAlternativesYAMLString unmarshal p raw).1 = Except.error err) ∨
      (∃ m, (parseAlternativesYAMLString unmarshal p raw).1 = Except.ok m) := by
  cases h : (parseAlternativesYAMLString unmarshal p raw).1 with
  | error err => exact Or.inl ⟨err, rfl⟩
  | ok m => exact Or.inr ⟨m, rfl⟩

/-- The parser fails exactly when the text is empty or the deserializer fails. -/
theorem parse_fails_iff [IntWidth] (unmarshal : Unmarshal) (p : alternativeSelector) (raw : String) :
    (∃ err, (parseAlternativesYAMLString unmarshal p raw).1 = Except.error err) ↔
      (raw = "" ∨ ∃ err, unmarshal raw = Except.error err) := by
  constructor
  · rintro ⟨err, h⟩
    rcases (parse_error_iff unmarshal p raw err).1 h with ⟨h1, _⟩ | ⟨_, e, h2, _⟩
    · exact Or.inl h1
    · exact Or.inr ⟨e, h2⟩
  · rintro (h | ⟨e, h⟩)
    · exact ⟨emptyConfigError, (parse_error_iff unmarshal p raw _).2 (Or.inl ⟨h, rfl⟩)⟩
    · by_cases hne : raw = ""
      · exact ⟨emptyConfigError, (parse_error_iff unmarshal p raw _).2 (Or.inl ⟨hne, rfl⟩)⟩
      · exact ⟨malformedConfigError e,
          (parse_error_iff unmarshal p raw _).2 (Or.inr ⟨hne, e, h, rfl⟩)⟩

/-! ## C1 to C5: what the operations return -/

/-- C1: when the stored configuration parses to a mapping `m` in which the
group id of `best` maps to the list `L`, `GetAlternativeOptions` returns the
walk of `L` in order that takes, for each identifier, the first option of
`options` with that group id when there is one and nothing otherwise. -/
theorem C1_options_follow_configured_list [IntWidth] (unmarshal : Unmarshal) (lister : ConfigMapLister)
    (as : alternativeSelector) (options : List expander.Option) (best : expander.Option)
    (cm : apiv1.ConfigMap) (raw : String) (m : alternatives) (L : List String)
    (hget : lister AlternativesConfigMapName = Except.ok cm)
    (hkey : cm.Data.lookup AlternativesConfigMapKey = some raw)
    (hparse : (parseAlternativesYAMLString unmarshal as raw).1 = Except.ok m)
    (hL : m.lookup best.NodeGroup.Id = some L) :
    (GetAlternativeOptions unmarshal lister as options (some best)).1 =
      firstMatches L options := by
  rw [options_parseOk unmarshal lister as options (some best) cm raw m hget hkey hparse]
  simp [hL]

/-- C1 at the configuration `A: [B, C]` with options `C, B, D, B` and best
`A`: the result is the first `B` followed by `C`. -/
theorem C1_witness :
    firstMatches ["B", "C"] [opt "C" 1, opt "B" 2, opt "D" 3, opt "B" 4] =
        [opt "B" 2, opt "C" 1] ∧
      (GetAlternativeOptions yamlTable (listerOf (cmWith "A: [B, C]")) sel0
          [opt "C" 1, opt "B" 2, opt "D" 3, opt "B" 4] (some (opt "A" 0))).1 =
        firstMatches ["B", "C"] [opt "C" 1, opt "B" 2, opt "D" 3, opt "B" 4] :=
  ⟨by decide,
    C1_options_follow_configured_list yamlTable (listerOf (cmWith "A: [B, C]")) sel0
      [opt "C" 1, opt "B" 2, opt "D" 3, opt "B" 4] (opt "A" 0) (cmWith "A: [B, C]")
      "A: [B, C]" [("A", ["B", "C"])] ["B", "C"] rfl rfl rfl rfl⟩

/-- C2: the parser returns the empty-configuration error for the empty text,
whatever the deserializer; for any other text it returns the malformed
configuration error carrying the message of the deserializer when that one
fails, and the decoded mapping itself when it succeeds; so it fails exactly
when the text is empty or the deserializer fails. -/
theorem C2_parser_result [IntWidth] (unmarshal : Unmarshal) (p : alternativeSelector) (raw : String) :
    (∀ other : Unmarshal,
        (parseAlternativesYAMLString other p "").1 = Except.error emptyConfigError) ∧
      (∀ err, raw ≠ "" → unmarshal raw = Except.error err →
        (parseAlternativesYAMLString unmarshal p raw).1 =
          Except.error (malformedConfigError err)) ∧
      (∀ m, raw ≠ "" → unmarshal raw = Except.ok m →
        (parseAlternativesYAMLString unmarshal p raw).1 = Except.ok m) ∧
      ((∃ err, (parseAlternativesYAMLString unmarshal p raw).1 = Except.error err) ↔
        (raw = "" ∨ ∃ err, unmarshal raw = Except.error err)) := by
  refine ⟨fun other => by rw [parse_empty], ?_, ?_, parse_fails_iff unmarshal p raw⟩
  · intro err hne hu
    rw [parse_unmarshal_error unmarshal p raw err hne hu]
  · intro m hne hu
    rw [parse_unmarshal_ok unmarshal p raw m hne hu]

/-- C2 at the texts `A: [B, C]` and `not: [valid, yaml: broken`. -/
theorem C2_witness :
    (parseAlternativesYAMLString yamlTable sel0 "A: [B, C]").1 =
        Except.ok [("A", ["B", "C"])] ∧
      (parseAlternativesYAMLString yamlTable sel0 "not: [valid, yaml: broken").1 =
        Except.error
          "Can't parse YAML with alternatives in the configmap: yaml: line 1: did not find expected ',' or ']'" :=
  ⟨(C2_parser_result yamlTable sel0 "A: [B, C]").2.2.1 _ (by decide) rfl,
    (C2_parser_result yamlTable sel0 "not: [valid, yaml: broken").2.1 _ (by decide) rfl⟩

/-- C3: `GetAlternativeNodeGroups g` returns the list configured for `g`
itself when the configuration parses and has the key `g`, and the empty
sequence when `g` is no key of the mapping, when the object is missing, when
the data key is absent, and when the text is empty or malformed. -/
theorem C3_nodeGroups_result [IntWidth] (unmarshal : Unmarshal) (lister : ConfigMapLister)
    (as : alternativeSelector) (g : String) :
    (∀ cm raw m L, lister AlternativesConfigMapName = Except.ok cm →
        cm.Data.lookup AlternativesConfigMapKey = some raw →
        (parseAlternativesYAMLString unmarshal as raw).1 = Except.ok m →
        m.lookup g = some L →
        (GetAlternativeNodeGroups unmarshal lister as g).1 = L) ∧
      (∀ cm raw m, lister AlternativesConfigMapName = Except.ok cm →
        cm.Data.lookup AlternativesConfigMapKey = some raw →
        (parseAlternativesYAMLString unmarshal as raw).1 = Except.ok m →
        m.lookup g = none →
        (GetAlternativeNodeGroups unmarshal lister as g).1 = []) ∧
      (∀ err, lister AlternativesConfigMapName = Except.error err →
        (GetAlternativeNodeGroups unmarshal lister as g).1 = []) ∧
      (∀ cm, lister AlternativesConfigMapName = Except.ok cm →
        cm.Data.lookup AlternativesConfigMapKey = none →
        (GetAlternativeNodeGroups unmarshal lister as g).1 = []) ∧
      (∀ cm raw err, lister AlternativesConfigMapName = Except.ok cm →
        cm.Data.lookup AlternativesConfigMapKey = some raw →
        (parseAlternativesYAMLString unmarshal as raw).1 = Except.error err →
        (GetAlternativeNodeGroups unmarshal lister as g).1 = []) := by
  refine ⟨?_, ?_, ?_, ?_, ?_⟩
  · intro cm raw m L hget hkey hparse hL
    rw [nodeGroups_parseOk unmarshal lister as g cm raw m hget hkey hparse]
    simp [hL]
  · intro cm raw m hget hkey hparse hL
    rw [nodeGroups_parseOk unmarshal lister as g cm raw m hget hkey hparse]
    simp [hL]
  · intro err hget
    rw [nodeGroups_missing unmarshal lister as g err hget]
  · intro cm hget hkey
    rw [nodeGroups_keyAbsent unmarshal lister as g cm hget hkey]
  · intro cm raw err hget hkey hparse
    rw [nodeGroups_parseError unmarshal lister as g cm raw err hget hkey hparse]

/-- C3 at the configuration `A: [B, B]`: the list of `A` comes back with its
duplicate, and a group that is no key gets the empty sequence. -/
theorem C3_witness :
    (GetAlternativeNodeGroups yamlTable (listerOf (cmWith "A: [B, B]")) sel0 "A").1 =
        ["B", "B"] ∧
      (GetAlternativeNodeGroups yamlTable (listerOf (cmWith "A: [B, B]")) sel0 "Z").1 = [] :=
  ⟨(C3_nodeGroups_result yamlTable (listerOf (cmWith "A: [B, B]")) sel0 "A").1
      (cmWith "A: [B, B]") "A: [B, B]" [("A", ["B", "B"])] ["B", "B"] rfl rfl rfl rfl,
    (C3_nodeGroups_result yamlTable (listerOf (cmWith "A: [B, B]")) sel0 "Z").2.1
      (cmWith "A: [B, B]") "A: [B, B]" [("A", ["B", "B"])] rfl rfl rfl rfl⟩

/-- C4: without a best option `GetAlternativeOptions` returns the empty
sequence, for every options sequence and every state of the stored
configuration. -/
theorem C4_options_without_best [IntWidth] (unmarshal : Unmarshal) (lister : ConfigMapLister)
    (as : alternativeSelector) (options : List expander.Option) :
    (GetAlternativeOptions unmarshal lister as options none).1 = [] := by
  rw [options_of_reload]
  rcases reloadConfigMap unmarshal lister as with ⟨⟨alts, cm, err⟩, as1⟩
  cases err <;> rfl

/-- C5: when no configuration mapping is obtained, because the object is
missing, or it lacks the data key, or the text under the key is empty or
malformed, `GetAlternativeOptions` returns the empty sequence. -/
theorem C5_options_without_mapping [IntWidth] (unmarshal : Unmarshal) (lister : ConfigMapLister)
    (as : alternativeSelector) (options : List expander.Option)
    (best : Option expander.Option)
    (hno : (∃ err, lister AlternativesConfigMapName = Except.error err) ∨
      ∃ cm, lister AlternativesConfigMapName = Except.ok cm ∧
        (cm.Data.lookup AlternativesConfigMapKey = none ∨
          ∃ raw, cm.Data.lookup AlternativesConfigMapKey = some raw ∧
            (raw = "" ∨ ∃ err, unmarshal raw = Except.error err))) :
    (GetAlternativeOptions unmarshal lister as options best).1 = [] := by
  rcases hno with ⟨err, hget⟩ | ⟨cm, hget, hkey | ⟨raw, hkey, hbad⟩⟩
  · rw [options_missing unmarshal lister as options best err hget]
  · rw [options_keyAbsent unmarshal lister as options best cm hget hkey]
  · obtain ⟨err, hparse⟩ := (parse_fails_iff unmarshal as raw).2 hbad
    rw [options_parseError unmarshal lister as options best cm raw err hget hkey hparse]

/-- C5 at the malformed text `not: [valid, yaml: broken` with a best option
and an option for it among the options. -/
theorem C5_witness :
    (GetAlternativeOptions yamlTable (listerOf (cmWith "not: [valid, yaml: broken")) sel0
        [opt "not" 1, opt "valid" 2] (some (opt "not" 1))).1 = [] :=
  C5_options_without_mapping yamlTable (listerOf (cmWith "not: [valid, yaml: broken")) sel0
    [opt "not" 1, opt "valid" 2] (some (opt "not" 1))
    (Or.inr ⟨cmWith "not: [valid, yaml: broken", rfl,
      Or.inr ⟨"not: [valid, yaml: broken", rfl, Or.inr ⟨_, rfl⟩⟩⟩)

/-! ## The selector after a call -/

theorem run_missing [IntWidth] (unmarshal : Unmarshal) (lister : ConfigMapLister)
    (as : alternativeSelector) (call : Call) (err : String)
    (hget : lister AlternativesConfigMapName = Except.error err) :
    call.run unmarshal lister as = as := by
  cases call with
  | getAlternativeOptions options best =>
    simp [Call.run, options_missing unmarshal lister as options best err hget]
  | getAlternativeNodeGroups g =>
    simp [Call.run, nodeGroups_missing unmarshal lister as g err hget]

theorem run_keyAbsent [IntWidth] (unmarshal : Unmarshal) (lister : ConfigMapLister)
    (as : alternativeSelector) (call : Call) (cm : apiv1.ConfigMap)
    (hget : lister AlternativesConfigMapName = Except.ok cm)
    (hkey : cm.Data.lookup AlternativesConfigMapKey = none) :
    call.run unmarshal lister as = as := by
  cases call with
  | getAlternativeOptions options best =>
    simp [Call.run, options_keyAbsent unmarshal lister as options best cm hget hkey]
  | getAlternativeNodeGroups g =>
    simp [Call.run, nodeGroups_keyAbsent unmarshal lister as g cm hget hkey]

theorem run_parseError [IntWidth] (unmarshal : Unmarshal) (lister : ConfigMapLister)
    (as : alternativeSelector) (call : Call) (cm : apiv1.ConfigMap) (raw err : String)
    (hget : lister AlternativesConfigMapName = Except.ok cm)
    (hkey : cm.Data.lookup AlternativesConfigMapKey = some raw)
    (hparse : (parseAlternativesYAMLString unmarshal as raw).1 = Except.error err) :
    call.run unmarshal lister as =
      logConfigWarning as cm "AlternativesConfigMapInvalid" (wrongConfigMessage err) := by
  cases call with
  | getAlternativeOptions options best =>
    simp [Call.run, options_parseError unmarshal lister as options best cm raw err hget hkey hparse]
  | getAlternativeNodeGroups g =>
    simp [Call.run, nodeGroups_parseError unmarshal lister as g cm raw err hget hkey hparse]

theorem run_parseOk [IntWidth] (unmarshal : Unmarshal) (lister : ConfigMapLister)
    (as : alternativeSelector) (call : Call) (cm : apiv1.ConfigMap) (raw : String)
    (m : alternatives)
    (hget : lister AlternativesConfigMapName = Except.ok cm)
    (hkey : cm.Data.lookup AlternativesConfigMapKey = some raw)
    (hparse : (parseAlternativesYAMLString unmarshal as raw).1 = Except.ok m) :
    call.run unmarshal lister as =
      { as with
        okConfigUpdates := wrapInt (as.okConfigUpdates + 1)
        klogLines := as.klogLines ++
          [klog.Line.V4Info "Successfully loaded alternatives configuration from configmap."] } := by
  cases call with
  | getAlternativeOptions options best =>
    simp [Call.run, options_parseOk unmarshal lister as options best cm raw m hget hkey hparse]
  | getAlternativeNodeGroups g =>
    simp [Call.run, nodeGroups_parseOk unmarshal lister as g cm raw m hget hkey hparse]

/-- The selector after a call, by the state of the stored configuration. -/
theorem run_eq [IntWidth] (unmarshal : Unmarshal) (lister : ConfigMapLister)
    (as : alternativeSelector) (call : Call) :
    call.run unmarshal lister as =
      match configState unmarshal lister with
      | ConfigState.objectMissing _ => as
      | ConfigState.keyAbsent _ => as
      | ConfigState.parseFailed cm err =>
        logConfigWarning as cm "AlternativesConfigMapInvalid" (wrongConfigMessage err)
      | ConfigState.loaded _ _ =>
        { as with
          okConfigUpdates := wrapInt (as.okConfigUpdates + 1)
          klogLines := as.klogLines ++
            [klog.Line.V4Info "Successfully loaded alternatives configuration from configmap."] } := by
  unfold configState
  cases hget : lister AlternativesConfigMapName with
  | error err => simp [run_missing unmarshal lister as call err hget]
  | ok cm =>
    cases hkey : cm.Data.lookup AlternativesConfigMapKey with
    | none => simp [hkey, run_keyAbsent unmarshal lister as call cm hget hkey]
    | some raw =>
      by_cases hne : raw = ""
      · have hparse : (parseAlternativesYAMLString unmarshal as raw).1 =
            Except.error emptyConfigError := by rw [hne, parse_empty]
        simp [hkey, hne, run_parseError unmarshal lister as call cm raw _ hget hkey hparse]
      · cases hu : unmarshal raw with
        | error e =>
          have hparse : (parseAlternativesYAMLString unmarshal as raw).1 =
              Except.error (malformedConfigError e) := by
            rw [parse_unmarshal_error unmarshal as raw e hne hu]
          simp [hkey, hu, hne, run_parseError unmarshal lister as call cm raw _ hget hkey hparse]
        | ok m =>
          have hparse : (parseAlternativesYAMLString unmarshal as raw).1 = Except.ok m := by
            rw [parse_unmarshal_ok unmarshal as raw m hne hu]
          simp [hkey, hu, hne, run_parseOk unmarshal lister as call cm raw m hget hkey hparse]

theorem runCalls_append [IntWidth] (unmarshal : Unmarshal) (as : alternativeSelector)
    (xs ys : List (ConfigMapLister × Call)) :
    runCalls unmarshal as (xs ++ ys) = runCalls unmarshal (runCalls unmarshal as xs) ys := by
  induction xs generalizing as with
  | nil => rfl
  | cons x xs ih =>
    obtain ⟨lister, call⟩ := x
    simp [runCalls, ih]

/-- The four states of the stored configuration, as the lister, the key
lookup and the parser show them. -/
theorem config_cases [IntWidth] (unmarshal : Unmarshal) (lister : ConfigMapLister)
    (as : alternativeSelector) :
    (∃ err, lister AlternativesConfigMapName = Except.error err) ∨
      (∃ cm, lister AlternativesConfigMapName = Except.ok cm ∧
        cm.Data.lookup AlternativesConfigMapKey = none) ∨
      (∃ cm raw err, lister AlternativesConfigMapName = Except.ok cm ∧
        cm.Data.lookup AlternativesConfigMapKey = some raw ∧
        (parseAlternativesYAMLString unmarshal as raw).1 = Except.error err) ∨
      (∃ cm raw m, lister AlternativesConfigMapName = Except.ok cm ∧
        cm.Data.lookup AlternativesConfigMapKey = some raw ∧
        (parseAlternativesYAMLString unmarshal as raw).1 = Except.ok m) := by
  cases hget : lister AlternativesConfigMapName with
  | error err => exact Or.inl ⟨err, rfl⟩
  | ok cm =>
    cases hkey : cm.Data.lookup AlternativesConfigMapKey with
    | none => exact Or.inr (Or.inl ⟨cm, rfl, hkey⟩)
    | some raw =>
      rcases parse_cases unmarshal as raw with ⟨err, h⟩ | ⟨m, h⟩
      · exact Or.inr (Or.inr (Or.inl ⟨cm, raw, err, rfl, hkey, h⟩))
      · exact Or.inr (Or.inr (Or.inr ⟨cm, raw, m, rfl, hkey, h⟩))

/-! ## C6 to C8: the health counters -/

/-- C6, as the specification states it, fails when `badConfigUpdates` holds
the largest value of `int`: a call of `GetAlternativeNodeGroups` under the
malformed text leaves it at the smallest value of `int`, not one higher. -/
theorem C6_counterexample :
    (maxInt : Int) = 9223372036854775807 ∧
      (minInt : Int) = -9223372036854775808 ∧
      (Call.run yamlTable (listerOf (cmWith "not: [valid, yaml: broken"))
          { sel0 with badConfigUpdates := 9223372036854775807 }
          (Call.getAlternativeNodeGroups "A")).badConfigUpdates = -9223372036854775808 ∧
      (Call.run yamlTable (listerOf (cmWith "not: [valid, yaml: broken"))
          { sel0 with badConfigUpdates := 9223372036854775807 }
          (Call.getAlternativeNodeGroups "A")).badConfigUpdates ≠ 9223372036854775807 + 1 := by
  refine ⟨by decide, by decide, by decide, by decide⟩

/-- C6, amended: for either public operation and any prior counters, a call
made while the key holds empty or malformed text increments `badConfigUpdates`
once as an `int`, which is one more when the counter is a value of `int`
other than the largest, and leaves `okConfigUpdates`; a call made while the
key holds well-formed text does the same to `okConfigUpdates` and leaves
`badConfigUpdates`; from counters other than the largest value a malformed
call followed by a well-formed call moves `(ok, bad)` to `(ok + 1, bad + 1)`. -/
theorem C6_counters_after_parse_attempt [IntWidth] (unmarshal : Unmarshal)
    (lister : ConfigMapLister)
    (as : alternativeSelector) (call : Call) (cm : apiv1.ConfigMap) (raw : String)
    (hget : lister AlternativesConfigMapName = Except.ok cm)
    (hkey : cm.Data.lookup AlternativesConfigMapKey = some raw) :
    ((raw = "" ∨ ∃ err, unmarshal raw = Except.error err) →
        (call.run unmarshal lister as).badConfigUpdates = wrapInt (as.badConfigUpdates + 1) ∧
          (call.run unmarshal lister as).okConfigUpdates = as.okConfigUpdates ∧
          (isInt as.badConfigUpdates → as.badConfigUpdates ≠ maxInt →
            (call.run unmarshal lister as).badConfigUpdates = as.badConfigUpdates + 1)) ∧
      ((raw ≠ "" ∧ ∃ m, unmarshal raw = Except.ok m) →
        (call.run unmarshal lister as).okConfigUpdates = wrapInt (as.okConfigUpdates + 1) ∧
          (call.run unmarshal lister as).badConfigUpdates = as.badConfigUpdates ∧
          (isInt as.okConfigUpdates → as.okConfigUpdates ≠ maxInt →
            (call.run unmarshal lister as).okConfigUpdates = as.okConfigUpdates + 1)) ∧
      ((raw = "" ∨ ∃ err, unmarshal raw = Except.error err) →
        isInt as.okConfigUpdates → as.okConfigUpdates ≠ maxInt →
        isInt as.badConfigUpdates → as.badConfigUpdates ≠ maxInt →
        ∀ (lister2 : ConfigMapLister) (call2 : Call) (cm2 : apiv1.ConfigMap) (raw2 : String),
          lister2 AlternativesConfigMapName = Except.ok cm2 →
          cm2.Data.lookup AlternativesConfigMapKey = some raw2 →
          (raw2 ≠ "" ∧ ∃ m, unmarshal raw2 = Except.ok m) →
          (call2.run unmarshal lister2 (call.run unmarshal lister as)).okConfigUpdates =
              as.okConfigUpdates + 1 ∧
            (call2.run unmarshal lister2 (call.run unmarshal lister as)).badConfigUpdates =
              as.badConfigUpdates + 1) := by
  have hbad : (raw = "" ∨ ∃ err, unmarshal raw = Except.error err) →
      ∃ err, call.run unmarshal lister as =
        logConfigWarning as cm "AlternativesConfigMapInvalid" (wrongConfigMessage err) := by
    intro h
    obtain ⟨err, hparse⟩ := (parse_fails_iff unmarshal as raw).2 h
    exact ⟨err, run_parseError unmarshal lister as call cm raw err hget hkey hparse⟩
  have hgood : ∀ (l : ConfigMapLister) (s : alternativeSelector) (c : Call)
      (cm1 : apiv1.ConfigMap) (r : String),
      l AlternativesConfigMapName = Except.ok cm1 →
      cm1.Data.lookup AlternativesConfigMapKey = some r →
      (r ≠ "" ∧ ∃ m, unmarshal r = Except.ok m) →
      (c.run unmarshal l s).okConfigUpdates = wrapInt (s.okConfigUpdates + 1) ∧
        (c.run unmarshal l s).badConfigUpdates = s.badConfigUpdates := by
    intro l s c cm1 r h1 h2 h3
    obtain ⟨hne, m, hu⟩ := h3
    have hparse := (parse_ok_iff unmarshal s r m).2 ⟨hne, hu⟩
    rw [run_parseOk unmarshal l s c cm1 r m h1 h2 hparse]
    exact ⟨rfl, rfl⟩
  refine ⟨?_, ?_, ?_⟩
  · intro h
    obtain ⟨err, hrun⟩ := hbad h
    rw [hrun]
    refine ⟨rfl, rfl, ?_⟩
    intro hint hmax
    exact wrapInt_succ as.badConfigUpdates hint hmax
  · intro h
    obtain ⟨h1, h2⟩ := hgood lister as call cm raw hget hkey h
    refine ⟨h1, h2, ?_⟩
    intro hint hmax
    rw [h1]
    exact wrapInt_succ as.okConfigUpdates hint hmax
  · intro h hoki hokm hbadi hbadm lister2 call2 cm2 raw2 hget2 hkey2 hwf
    obtain ⟨err, hrun⟩ := hbad h
    obtain ⟨h1, h2⟩ := hgood lister2 (call.run unmarshal lister as) call2 cm2 raw2 hget2 hkey2 hwf
    rw [h1, h2, hrun]
    constructor
    · exact wrapInt_succ as.okConfigUpdates hoki hokm
    · exact wrapInt_succ as.badConfigUpdates hbadi hbadm

/-- C6, amended, from counters `(5, 7)`: a call of `GetAlternativeNodeGroups`
under the malformed text gives `(5, 8)`, and a following call of
`GetAlternativeOptions` under `A: [B, C]` gives `(6, 8)`. -/
theorem C6_witness :
    (Call.run yamlTable (listerOf (cmWith "not: [valid, yaml: broken"))
          { sel0 with okConfigUpdates := 5, badConfigUpdates := 7 }
          (Call.getAlternativeNodeGroups "A")).badConfigUpdates = 7 + 1 ∧
      (Call.run yamlTable (listerOf (cmWith "A: [B, C]"))
          (Call.run yamlTable (listerOf (cmWith "not: [valid, yaml: broken"))
            { sel0 with okConfigUpdates := 5, badConfigUpdates := 7 }
            (Call.getAlternativeNodeGroups "A"))
          (Call.getAlternativeOptions [opt "B" 1] none)).okConfigUpdates = 5 + 1 :=
  ⟨((C6_counters_after_parse_attempt yamlTable (listerOf (cmWith "not: [valid, yaml: broken"))
        { sel0 with okConfigUpdates := 5, badConfigUpdates := 7 }
        (Call.getAlternativeNodeGroups "A") (cmWith "not: [valid, yaml: broken")
        "not: [valid, yaml: broken" rfl rfl).1 (Or.inr ⟨_, rfl⟩)).2.2 (by decide) (by decide),
    ((C6_counters_after_parse_attempt yamlTable (listerOf (cmWith "not: [valid, yaml: broken"))
        { sel0 with okConfigUpdates := 5, badConfigUpdates := 7 }
        (Call.getAlternativeNodeGroups "A") (cmWith "not: [valid, yaml: broken")
        "not: [valid, yaml: broken" rfl rfl).2.2 (Or.inr ⟨_, rfl⟩)
        (by decide) (by decide) (by decide) (by decide)
        (listerOf (cmWith "A: [B, C]")) (Call.getAlternativeOptions [opt "B" 1] none)
        (cmWith "A: [B, C]") "A: [B, C]" rfl rfl ⟨by decide, _, rfl⟩).1⟩

/-- C7: when the named object does not exist, or exists without the data
key, either public operation returns the empty result and leaves the selector,
both counters included, as it was; and it does so whatever parser is put in
the place of the parser method, so the parser is not called. -/
theorem C7_absent_configuration_leaves_selector [IntWidth] (lister : ConfigMapLister)
    (as : alternativeSelector)
    (hno : (∃ err, lister AlternativesConfigMapName = Except.error err) ∨
      ∃ cm, lister AlternativesConfigMapName = Except.ok cm ∧
        cm.Data.lookup AlternativesConfigMapKey = none) :
    (∀ (parse : ParserMethod) options best,
        GetAlternativeOptionsWith parse lister as options best = ([], as)) ∧
      (∀ (parse : ParserMethod) g,
        GetAlternativeNodeGroupsWith parse lister as g = ([], as)) ∧
      (∀ (unmarshal : Unmarshal) options best,
        GetAlternativeOptions unmarshal lister as options best = ([], as)) ∧
      (∀ (unmarshal : Unmarshal) g,
        GetAlternativeNodeGroups unmarshal lister as g = ([], as)) ∧
      (∀ (unmarshal : Unmarshal) (call : Call),
        (call.run unmarshal lister as).okConfigUpdates = as.okConfigUpdates ∧
          (call.run unmarshal lister as).badConfigUpdates = as.badConfigUpdates) := by
  have hopt : ∀ (parse : ParserMethod) options best,
      GetAlternativeOptionsWith parse lister as options best = ([], as) := by
    intro parse options best
    rcases hno with ⟨err, hget⟩ | ⟨cm, hget, hkey⟩
    · simp [GetAlternativeOptionsWith, reloadWith_missing parse lister as err hget]
    · cases best <;>
        simp [GetAlternativeOptionsWith, reloadWith_keyAbsent parse lister as cm hget hkey]
  have hgrp : ∀ (parse : ParserMethod) g,
      GetAlternativeNodeGroupsWith parse lister as g = ([], as) := by
    intro parse g
    rcases hno with ⟨err, hget⟩ | ⟨cm, hget, hkey⟩
    · simp [GetAlternativeNodeGroupsWith, reloadWith_missing parse lister as err hget]
    · simp [GetAlternativeNodeGroupsWith, reloadWith_keyAbsent parse lister as cm hget hkey]
  refine ⟨hopt, hgrp, fun unmarshal options best => hopt _ options best,
    fun unmarshal g => hgrp _ g, ?_⟩
  intro unmarshal call
  cases call with
  | getAlternativeOptions options best =>
    simp [Call.run, GetAlternativeOptions, hopt]
  | getAlternativeNodeGroups g =>
    simp [Call.run, GetAlternativeNodeGroups, hgrp]

/-- C7 at a ConfigMap without the alternatives key and counters `(5, 7)`. -/
theorem C7_witness :
    GetAlternativeOptions yamlTable (listerOf cmNoKey)
        { sel0 with okConfigUpdates := 5, badConfigUpdates := 7 }
        [opt "B" 1] (some (opt "A" 0)) =
      ([], { sel0 with okConfigUpdates := 5, badConfigUpdates := 7 }) :=
  (C7_absent_configuration_leaves_selector (listerOf cmNoKey)
    { sel0 with okConfigUpdates := 5, badConfigUpdates := 7 }
    (Or.inr ⟨cmNoKey, rfl, rfl⟩)).2.2.1 yamlTable [opt "B" 1] (some (opt "A" 0))

/-- C8, as the specification states it, fails at the text `A: [B, C]`: the
parser itself moves `okConfigUpdates` from 0 to 1, so the two counters are not
the same after every parse call as before it. -/
theorem C8_counterexample :
    (parseAlternativesYAMLString yamlTable sel0 "A: [B, C]").1 =
        Except.ok [("A", ["B", "C"])] ∧
      sel0.okConfigUpdates = 0 ∧
      (parseAlternativesYAMLString yamlTable sel0 "A: [B, C]").2.okConfigUpdates = 1 ∧
      ¬ (∀ (unmarshal : Unmarshal) (p : alternativeSelector) (raw : String),
          (parseAlternativesYAMLString unmarshal p raw).2.okConfigUpdates = p.okConfigUpdates ∧
            (parseAlternativesYAMLString unmarshal p raw).2.badConfigUpdates =
              p.badConfigUpdates) := by
  refine ⟨rfl, rfl, rfl, ?_⟩
  intro h
  have h1 := (h yamlTable sel0 "A: [B, C]").1
  revert h1
  decide

/-- The selector after `GetAlternativeOptions` is the selector after
`reloadConfigMap`. -/
theorem options_state_eq [IntWidth] (unmarshal : Unmarshal) (lister : ConfigMapLister)
    (as : alternativeSelector) (options : List expander.Option)
    (best : Option expander.Option) :
    (GetAlternativeOptions unmarshal lister as options best).2 =
      (reloadConfigMap unmarshal lister as).2 := by
  rw [options_of_reload]
  rcases reloadConfigMap unmarshal lister as with ⟨⟨alts, cm, err⟩, as1⟩
  cases err with
  | some e => rfl
  | none =>
    cases best with
    | none => rfl
    | some b => cases h : alts.lookup b.NodeGroup.Id <;> simp [h]

/-- The selector after `GetAlternativeNodeGroups` is the selector after
`reloadConfigMap`. -/
theorem nodeGroups_state_eq [IntWidth] (unmarshal : Unmarshal) (lister : ConfigMapLister)
    (as : alternativeSelector) (g : String) :
    (GetAlternativeNodeGroups unmarshal lister as g).2 =
      (reloadConfigMap unmarshal lister as).2 := by
  rw [nodeGroups_of_reload]
  rcases reloadConfigMap unmarshal lister as with ⟨⟨alts, cm, err⟩, as1⟩
  cases err <;> rfl

/-- C8, amended: when the parser returns an error it leaves the selector as
it was; when it returns a mapping the selector after it differs in two places
only: `okConfigUpdates` has been incremented once as an `int` by the parser
itself, which is one more when the counter is a value of `int` other than the
largest, and one line has gone to klog at verbosity 4; so the parser never
changes `badConfigUpdates` nor what the recorder has received.  In
`reloadConfigMap` the caller changes nothing after a successful parse, and
after a failed one it appends the warning event and the warning line and
increments `badConfigUpdates` once, leaving `okConfigUpdates`; the two public
operations change nothing beyond what `reloadConfigMap` does. -/
theorem C8_parser_effect [IntWidth] (unmarshal : Unmarshal) (p : alternativeSelector)
    (raw : String) :
    (∀ err, (parseAlternativesYAMLString unmarshal p raw).1 = Except.error err →
        (parseAlternativesYAMLString unmarshal p raw).2 = p) ∧
      (∀ m, (parseAlternativesYAMLString unmarshal p raw).1 = Except.ok m →
        (parseAlternativesYAMLString unmarshal p raw).2 =
          { logRecorder := p.logRecorder,
            okConfigUpdates := wrapInt (p.okConfigUpdates + 1),
            badConfigUpdates := p.badConfigUpdates,
            klogLines := p.klogLines ++
              [klog.Line.V4Info
                "Successfully loaded alternatives configuration from configmap."] }) ∧
      (∀ m, (parseAlternativesYAMLString unmarshal p raw).1 = Except.ok m →
        isInt p.okConfigUpdates → p.okConfigUpdates ≠ maxInt →
        (parseAlternativesYAMLString unmarshal p raw).2.okConfigUpdates =
          p.okConfigUpdates + 1) ∧
      ((parseAlternativesYAMLString unmarshal p raw).2.badConfigUpdates = p.badConfigUpdates ∧
        (parseAlternativesYAMLString unmarshal p raw).2.logRecorder = p.logRecorder) ∧
      (∀ (lister : ConfigMapLister) cm, lister AlternativesConfigMapName = Except.ok cm →
        cm.Data.lookup AlternativesConfigMapKey = some raw →
        (∀ m, (parseAlternativesYAMLString unmarshal p raw).1 = Except.ok m →
          (reloadConfigMap unmarshal lister p).2 =
            (parseAlternativesYAMLString unmarshal p raw).2) ∧
        (∀ err, (parseAlternativesYAMLString unmarshal p raw).1 = Except.error err →
          (reloadConfigMap unmarshal lister p).2 =
            { logRecorder := p.logRecorder ++
                [{ object := cm, eventtype := "Warning",
                   reason := "AlternativesConfigMapInvalid",
                   message := wrongConfigMessage err }],
              okConfigUpdates := p.okConfigUpdates,
              badConfigUpdates := wrapInt (p.badConfigUpdates + 1),
              klogLines := p.klogLines ++ [klog.Line.Warning (wrongConfigMessage err)] })) ∧
      (∀ (lister : ConfigMapLister) options best,
        (GetAlternativeOptions unmarshal lister p options best).2 =
          (reloadConfigMap unmarshal lister p).2) ∧
      (∀ (lister : ConfigMapLister) g,
        (GetAlternativeNodeGroups unmarshal lister p g).2 =
          (reloadConfigMap unmarshal lister p).2) := by
  have herr : ∀ err, (parseAlternativesYAMLString unmarshal p raw).1 = Except.error err →
      (parseAlternativesYAMLString unmarshal p raw).2 = p := by
    intro err h
    rcases (parse_error_iff unmarshal p raw err).1 h with ⟨h1, _⟩ | ⟨h1, e, h2, _⟩
    · rw [h1, parse_empty]
    · rw [parse_unmarshal_error unmarshal p raw e h1 h2]
  have hok : ∀ m, (parseAlternativesYAMLString unmarshal p raw).1 = Except.ok m →
      (parseAlternativesYAMLString unmarshal p raw).2 =
        { logRecorder := p.logRecorder,
          okConfigUpdates := wrapInt (p.okConfigUpdates + 1),
          badConfigUpdates := p.badConfigUpdates,
          klogLines := p.klogLines ++
            [klog.Line.V4Info
              "Successfully loaded alternatives configuration from configmap."] } := by
    intro m h
    obtain ⟨h1, h2⟩ := (parse_ok_iff unmarshal p raw m).1 h
    rw [parse_unmarshal_ok unmarshal p raw m h1 h2]
  have hframe : (parseAlternativesYAMLString unmarshal p raw).2.badConfigUpdates =
        p.badConfigUpdates ∧
      (parseAlternativesYAMLString unmarshal p raw).2.logRecorder = p.logRecorder := by
    rcases parse_cases unmarshal p raw with ⟨err, h⟩ | ⟨m, h⟩
    · rw [herr err h]
      exact ⟨rfl, rfl⟩
    · rw [hok m h]
      exact ⟨rfl, rfl⟩
  refine ⟨herr, hok, ?_, hframe, ?_, ?_, ?_⟩
  · intro m h hint hmax
    rw [hok m h]
    exact wrapInt_succ p.okConfigUpdates hint hmax
  · intro lister cm hget hkey
    constructor
    · intro m h
      rw [reload_parseOk unmarshal lister p cm raw m hget hkey h, hok m h]
    · intro err h
      rw [reload_parseError unmarshal lister p cm raw err hget hkey h]
      rfl
  · intro lister options best
    exact options_state_eq unmarshal lister p options best
  · intro lister g
    exact nodeGroups_state_eq unmarshal lister p g

/-- C8, amended, at the texts `A: [B, C]` and the empty text from counters
`(5, 7)`. -/
theorem C8_witness :
    (parseAlternativesYAMLString yamlTable
          { sel0 with okConfigUpdates := 5, badConfigUpdates := 7 } "A: [B, C]").2.okConfigUpdates =
        5 + 1 ∧
      (parseAlternativesYAMLString yamlTable
          { sel0 with okConfigUpdates := 5, badConfigUpdates := 7 } "").2 =
        { sel0 with okConfigUpdates := 5, badConfigUpdates := 7 } :=
  ⟨(C8_parser_effect yamlTable { sel0 with okConfigUpdates := 5, badConfigUpdates := 7 }
      "A: [B, C]").2.2.1 _ rfl (by decide) (by decide),
    (C8_parser_effect yamlTable { sel0 with okConfigUpdates := 5, badConfigUpdates := 7 }
      "").1 _ rfl⟩

/-! ## C9: the counters along a sequence of calls -/

/-- The configuration counts as loaded exactly when the object exists, holds
the key, and the text under it is not empty and is decoded. -/
theorem isLoaded_iff (unmarshal : Unmarshal) (lister : ConfigMapLister) :
    (configState unmarshal lister).isLoaded = true ↔
      ∃ cm raw m, lister AlternativesConfigMapName = Except.ok cm ∧
        cm.Data.lookup AlternativesConfigMapKey = some raw ∧
        raw ≠ "" ∧ unmarshal raw = Except.ok m := by
  unfold configState
  cases hget : lister AlternativesConfigMapName with
  | error err => simp [ConfigState.isLoaded]
  | ok cm =>
    cases hkey : cm.Data.lookup AlternativesConfigMapKey with
    | none => simp [ConfigState.isLoaded, hkey]
    | some raw =>
      by_cases hne : raw = ""
      · simp [ConfigState.isLoaded, hkey, hne]
      · cases hu : unmarshal raw <;> simp [ConfigState.isLoaded, hkey, hne, hu]

/-- The configuration counts as failed exactly when the object exists, holds
the key, and the text under it is empty or is not decoded. -/
theorem isParseFailed_iff (unmarshal : Unmarshal) (lister : ConfigMapLister) :
    (configState unmarshal lister).isParseFailed = true ↔
      ∃ cm raw, lister AlternativesConfigMapName = Except.ok cm ∧
        cm.Data.lookup AlternativesConfigMapKey = some raw ∧
        (raw = "" ∨ ∃ err, unmarshal raw = Except.error err) := by
  unfold configState
  cases hget : lister AlternativesConfigMapName with
  | error err => simp [ConfigState.isParseFailed]
  | ok cm =>
    cases hkey : cm.Data.lookup AlternativesConfigMapKey with
    | none => simp [ConfigState.isParseFailed, hkey]
    | some raw =>
      by_cases hne : raw = ""
      · simp [ConfigState.isParseFailed, hkey, hne]
      · cases hu : unmarshal raw <;> simp [ConfigState.isParseFailed, hkey, hne, hu]

/-- One call increments, as an `int`, the counter of its outcome. -/
theorem run_counters [IntWidth] (unmarshal : Unmarshal) (lister : ConfigMapLister)
    (as : alternativeSelector) (call : Call) :
    (call.run unmarshal lister as).okConfigUpdates =
        (if (configState unmarshal lister).isLoaded then wrapInt (as.okConfigUpdates + 1)
          else as.okConfigUpdates) ∧
      (call.run unmarshal lister as).badConfigUpdates =
        (if (configState unmarshal lister).isParseFailed then wrapInt (as.badConfigUpdates + 1)
          else as.badConfigUpdates) := by
  rw [run_eq]
  cases configState unmarshal lister <;>
    simp [ConfigState.isLoaded, ConfigState.isParseFailed, logConfigWarning]

/-- No stored configuration is both loaded and failed. -/
theorem not_loaded_and_failed (c : ConfigState) :
    ¬ (c.isLoaded = true ∧ c.isParseFailed = true) := by
  cases c <;> simp [ConfigState.isLoaded, ConfigState.isParseFailed]

/-- While no counter passes the largest `int`, a sequence of calls adds to
each counter the number of calls with the matching outcome. -/
theorem runCalls_counters [IntWidth] (unmarshal : Unmarshal) (as : alternativeSelector)
    (calls : List (ConfigMapLister × Call))
    (hok : isInt as.okConfigUpdates) (hbad : isInt as.badConfigUpdates)
    (hokmax : as.okConfigUpdates +
      (calls.countP (fun c => (configState unmarshal c.1).isLoaded) : Nat) ≤ maxInt)
    (hbadmax : as.badConfigUpdates +
      (calls.countP (fun c => (configState unmarshal c.1).isParseFailed) : Nat) ≤ maxInt) :
    (runCalls unmarshal as calls).okConfigUpdates =
        as.okConfigUpdates +
          (calls.countP (fun c => (configState unmarshal c.1).isLoaded) : Nat) ∧
      (runCalls unmarshal as calls).badConfigUpdates =
        as.badConfigUpdates +
          (calls.countP (fun c => (configState unmarshal c.1).isParseFailed) : Nat) := by
  induction calls generalizing as with
  | nil => simp [runCalls]
  | cons c rest ih =>
    obtain ⟨lister, call⟩ := c
    obtain ⟨g1, g2⟩ := run_counters unmarshal lister as call
    simp only [List.countP_cons] at hokmax hbadmax
    have s1 : (call.run unmarshal lister as).okConfigUpdates =
        as.okConfigUpdates + (if (configState unmarshal lister).isLoaded = true then 1 else 0) := by
      rw [g1]
      by_cases hl : (configState unmarshal lister).isLoaded = true
      · simp only [hl, if_true] at hokmax ⊢
        apply wrapInt_succ as.okConfigUpdates hok
        push_cast at hokmax
        omega
      · simp [hl]
    have s2 : (call.run unmarshal lister as).badConfigUpdates =
        as.badConfigUpdates +
          (if (configState unmarshal lister).isParseFailed = true then 1 else 0) := by
      rw [g2]
      by_cases hl : (configState unmarshal lister).isParseFailed = true
      · simp only [hl, if_true] at hbadmax ⊢
        apply wrapInt_succ as.badConfigUpdates hbad
        push_cast at hbadmax
        omega
      · simp [hl]
    have i1 : isInt (call.run unmarshal lister as).okConfigUpdates := by
      rw [g1]
      by_cases hl : (configState unmarshal lister).isLoaded = true
      · simp only [hl, if_true]
        exact isInt_wrapInt _
      · simpa [hl] using hok
    have i2 : isInt (call.run unmarshal lister as).badConfigUpdates := by
      rw [g2]
      by_cases hl : (configState unmarshal lister).isParseFailed = true
      · simp only [hl, if_true]
        exact isInt_wrapInt _
      · simpa [hl] using hbad
    have m1 : (call.run unmarshal lister as).okConfigUpdates +
        (rest.countP (fun c => (configState unmarshal c.1).isLoaded) : Nat) ≤ maxInt := by
      rw [s1]
      by_cases hl : (configState unmarshal lister).isLoaded = true
      · simp only [hl, if_true] at hokmax ⊢
        push_cast at hokmax
        omega
      · simp only [hl] at hokmax ⊢
        simp at hokmax ⊢
        exact hokmax
    have m2 : (call.run unmarshal lister as).badConfigUpdates +
        (rest.countP (fun c => (configState unmarshal c.1).isParseFailed) : Nat) ≤ maxInt := by
      rw [s2]
      by_cases hl : (configState unmarshal lister).isParseFailed = true
      · simp only [hl, if_true] at hbadmax ⊢
        push_cast at hbadmax
        omega
      · simp only [hl] at hbadmax ⊢
        simp at hbadmax ⊢
        exact hbadmax
    obtain ⟨h1, h2⟩ := ih (call.run unmarshal lister as) i1 i2 m1 m2
    simp only [runCalls, List.countP_cons]
    rw [h1, h2, s1, s2]
    constructor
    · by_cases hl : (configState unmarshal lister).isLoaded = true
      · simp [hl]
        ring
      · simp [hl]
    · by_cases hl : (configState unmarshal lister).isParseFailed = true
      · simp [hl]
        ring
      · simp [hl]

theorem selectorAfter_succ [IntWidth] (unmarshal : Unmarshal) (logRecorder : List record.Event)
    (klogLines : List klog.Line) (calls : List (ConfigMapLister × Call)) (k : Nat)
    (hk : k < calls.length) :
    selectorAfter unmarshal logRecorder klogLines calls (k + 1) =
      (calls.get ⟨k, hk⟩).2.run unmarshal (calls.get ⟨k, hk⟩).1
        (selectorAfter unmarshal logRecorder klogLines calls k) := by
  unfold selectorAfter
  rw [List.take_succ, runCalls_append]
  simp [List.getElem?_eq_getElem hk, runCalls]

/-- While no counter passes the largest `int`, the counters after the first
`k` calls on a fresh selector are the numbers of loaded and of failed calls
among them. -/
theorem selectorAfter_counters [IntWidth] (unmarshal : Unmarshal)
    (logRecorder : List record.Event) (klogLines : List klog.Line)
    (calls : List (ConfigMapLister × Call))
    (hok : ((calls.countP (fun c => (configState unmarshal c.1).isLoaded) : Nat) : Int) ≤
      maxInt)
    (hbad : ((calls.countP (fun c => (configState unmarshal c.1).isParseFailed) : Nat) : Int) ≤
      maxInt)
    (k : Nat) :
    (selectorAfter unmarshal logRecorder klogLines calls k).okConfigUpdates =
        (((calls.take k).countP (fun c => (configState unmarshal c.1).isLoaded) : Nat) : Int) ∧
      (selectorAfter unmarshal logRecorder klogLines calls k).badConfigUpdates =
        (((calls.take k).countP
          (fun c => (configState unmarshal c.1).isParseFailed) : Nat) : Int) := by
  have l1 : (calls.take k).countP (fun c => (configState unmarshal c.1).isLoaded) ≤
      calls.countP (fun c => (configState unmarshal c.1).isLoaded) :=
    List.Sublist.countP_le _ (List.take_sublist k calls)
  have l2 : (calls.take k).countP (fun c => (configState unmarshal c.1).isParseFailed) ≤
      calls.countP (fun c => (configState unmarshal c.1).isParseFailed) :=
    List.Sublist.countP_le _ (List.take_sublist k calls)
  have h := runCalls_counters unmarshal (NewSelector logRecorder klogLines) (calls.take k)
    isInt_zero isInt_zero
    (by simp only [NewSelector]; omega) (by simp only [NewSelector]; omega)
  simp only [NewSelector, zero_add] at h
  exact h

/-- C9, as the specification states it, fails on the sequence of `2 ^ 63`
calls of `GetAlternativeNodeGroups` under the empty text, `int` having 64
bits: `badConfigUpdates` is the largest `int` after all calls but the last,
and the smallest `int` after the last, so it has decreased and is not the
number of failed calls; with 32 bits the same happens after `2 ^ 31` calls. -/
theorem C9_counterexample :
    (intHalf : Nat) = 9223372036854775808 ∧
      (maxInt : Int) = 9223372036854775807 ∧
      (minInt : Int) = -9223372036854775808 ∧
      (selectorAfter yamlTable [] []
          (List.replicate intHalf (listerOf (cmWith ""), Call.getAlternativeNodeGroups "A"))
          (intHalf - 1)).badConfigUpdates = maxInt ∧
      (selectorAfter yamlTable [] []
          (List.replicate intHalf (listerOf (cmWith ""), Call.getAlternativeNodeGroups "A"))
          intHalf).badConfigUpdates = minInt ∧
      (runCalls yamlTable (NewSelector [] [])
          (List.replicate intHalf
            (listerOf (cmWith ""), Call.getAlternativeNodeGroups "A"))).badConfigUpdates =
        minInt ∧
      (List.replicate intHalf (listerOf (cmWith ""), Call.getAlternativeNodeGroups "A")).countP
          (fun c => (configState yamlTable c.1).isParseFailed) = intHalf ∧
      ¬ ((selectorAfter yamlTable [] []
            (List.replicate intHalf (listerOf (cmWith ""), Call.getAlternativeNodeGroups "A"))
            (intHalf - 1)).badConfigUpdates ≤
          (selectorAfter yamlTable [] []
            (List.replicate intHalf (listerOf (cmWith ""), Call.getAlternativeNodeGroups "A"))
            intHalf).badConfigUpdates) ∧
      (runCalls yamlTable (NewSelector [] [])
          (List.replicate intHalf
            (listerOf (cmWith ""), Call.getAlternativeNodeGroups "A"))).badConfigUpdates ≠
        (((List.replicate intHalf
            (listerOf (cmWith ""), Call.getAlternativeNodeGroups "A")).countP
          (fun c => (configState yamlTable c.1).isParseFailed) : Nat) : Int) ∧
      @intHalf intWidth32 = 2147483648 ∧
      (@runCalls intWidth32 yamlTable (NewSelector [] [])
          (List.replicate (@intHalf intWidth32)
            (listerOf (cmWith ""), Call.getAlternativeNodeGroups "A"))).badConfigUpdates =
        -2147483648 := by
  have hfail : (configState yamlTable (listerOf (cmWith ""))).isParseFailed = true := by
    decide
  have hload : (configState yamlTable (listerOf (cmWith ""))).isLoaded = false := by
    decide
  have key : ∀ (w : IntWidth),
      (@runCalls w yamlTable (NewSelector [] [])
          (List.replicate (@intHalf w - 1)
            (listerOf (cmWith ""), Call.getAlternativeNodeGroups "A"))).badConfigUpdates =
        @maxInt w ∧
      (@runCalls w yamlTable (NewSelector [] [])
          (List.replicate (@intHalf w)
            (listerOf (cmWith ""), Call.getAlternativeNodeGroups "A"))).badConfigUpdates =
        @minInt w := by
    intro w
    have hpos := @intHalf_pos w
    have hnat : 1 ≤ @intHalf w := by exact_mod_cast hpos
    have hcast : (((@intHalf w - 1 : Nat)) : Int) = @maxInt w := by
      unfold maxInt
      omega
    have h1 := @runCalls_counters w yamlTable (NewSelector [] [])
      (List.replicate (@intHalf w - 1)
        (listerOf (cmWith ""), Call.getAlternativeNodeGroups "A"))
      isInt_zero isInt_zero
      (by
        rw [List.countP_replicate]
        simp only [hload, NewSelector]
        have := @isInt_maxInt w
        have := (@isInt_zero w).2
        simp
        omega)
      (by
        rw [List.countP_replicate]
        simp only [hfail, if_true, NewSelector]
        omega)
    have hbefore : (@runCalls w yamlTable (NewSelector [] [])
          (List.replicate (@intHalf w - 1)
            (listerOf (cmWith ""), Call.getAlternativeNodeGroups "A"))).badConfigUpdates =
        @maxInt w := by
      rw [h1.2, List.countP_replicate]
      simp only [hfail, if_true, NewSelector]
      omega
    refine ⟨hbefore, ?_⟩
    have hsplit : List.replicate (@intHalf w)
          (listerOf (cmWith ""), Call.getAlternativeNodeGroups "A") =
        List.replicate (@intHalf w - 1)
            (listerOf (cmWith ""), Call.getAlternativeNodeGroups "A") ++
          [(listerOf (cmWith ""), Call.getAlternativeNodeGroups "A")] := by
      rw [← List.replicate_succ', Nat.sub_add_cancel hnat]
    rw [hsplit, runCalls_append]
    simp only [runCalls]
    rw [(run_counters yamlTable (listerOf (cmWith "")) _ (Call.getAlternativeNodeGroups "A")).2]
    simp only [hfail, if_true]
    rw [hbefore]
    exact wrapInt_maxInt_succ
  have hbefore : (selectorAfter yamlTable [] []
        (List.replicate intHalf (listerOf (cmWith ""), Call.getAlternativeNodeGroups "A"))
        (intHalf - 1)).badConfigUpdates = maxInt := by
    unfold selectorAfter
    rw [List.take_replicate, Nat.min_eq_left (Nat.sub_le _ _)]
    exact (key intWidth64).1
  have hafter : (selectorAfter yamlTable [] []
        (List.replicate intHalf (listerOf (cmWith ""), Call.getAlternativeNodeGroups "A"))
        intHalf).badConfigUpdates = minInt := by
    unfold selectorAfter
    rw [List.take_replicate, Nat.min_self]
    exact (key intWidth64).2
  have hcount : (List.replicate intHalf
        (listerOf (cmWith ""), Call.getAlternativeNodeGroups "A")).countP
      (fun c => (configState yamlTable c.1).isParseFailed) = intHalf := by
    rw [List.countP_replicate]
    simp only [hfail, if_true]
  refine ⟨by decide, by decide, by decide, hbefore, hafter, (key intWidth64).2, hcount,
    ?_, ?_, by decide, ?_⟩
  · rw [hbefore, hafter]
    decide
  · rw [(key intWidth64).2, hcount]
    decide
  · rw [(key intWidth32).2]
    decide

/-- C9, amended: along any finite sequence of calls of the two public
operations on a freshly constructed selector, each call leaves the pair of
counters or increments one of them once as an `int`; and when the number of
loaded calls and the number of failed calls are each at most the largest
`int`, as for every sequence of fewer than `2 ^ (bits - 1)` calls, no counter
ever decreases, each call changes the pair by `(0, 0)`, `(1, 0)` or `(0, 1)`,
`okConfigUpdates` ends as the number of calls whose configuration text was
present and parsed, and `badConfigUpdates` as the number of calls whose text
was present and failed to parse. -/
theorem C9_counters_count_outcomes [IntWidth] (unmarshal : Unmarshal)
    (logRecorder : List record.Event)
    (klogLines : List klog.Line) (calls : List (ConfigMapLister × Call)) :
    (∀ k, k < calls.length →
        ((selectorAfter unmarshal logRecorder klogLines calls (k + 1)).okConfigUpdates,
            (selectorAfter unmarshal logRecorder klogLines calls (k + 1)).badConfigUpdates) ∈
          [((selectorAfter unmarshal logRecorder klogLines calls k).okConfigUpdates,
              (selectorAfter unmarshal logRecorder klogLines calls k).badConfigUpdates),
            (wrapInt ((selectorAfter unmarshal logRecorder klogLines calls k).okConfigUpdates + 1),
              (selectorAfter unmarshal logRecorder klogLines calls k).badConfigUpdates),
            ((selectorAfter unmarshal logRecorder klogLines calls k).okConfigUpdates,
              wrapInt
                ((selectorAfter unmarshal logRecorder klogLines calls k).badConfigUpdates + 1))]) ∧
      (((calls.countP (fun c => (configState unmarshal c.1).isLoaded) : Nat) : Int) ≤ maxInt →
        ((calls.countP (fun c => (configState unmarshal c.1).isParseFailed) : Nat) : Int) ≤
          maxInt →
        (∀ j k, j ≤ k →
          (selectorAfter unmarshal logRecorder klogLines calls j).okConfigUpdates ≤
              (selectorAfter unmarshal logRecorder klogLines calls k).okConfigUpdates ∧
            (selectorAfter unmarshal logRecorder klogLines calls j).badConfigUpdates ≤
              (selectorAfter unmarshal logRecorder klogLines calls k).badConfigUpdates) ∧
        (∀ k, k < calls.length →
          ((selectorAfter unmarshal logRecorder klogLines calls (k + 1)).okConfigUpdates,
              (selectorAfter unmarshal logRecorder klogLines calls (k + 1)).badConfigUpdates) ∈
            [((selectorAfter unmarshal logRecorder klogLines calls k).okConfigUpdates,
                (selectorAfter unmarshal logRecorder klogLines calls k).badConfigUpdates),
              ((selectorAfter unmarshal logRecorder klogLines calls k).okConfigUpdates + 1,
                (selectorAfter unmarshal logRecorder klogLines calls k).badConfigUpdates),
              ((selectorAfter unmarshal logRecorder klogLines calls k).okConfigUpdates,
                (selectorAfter unmarshal logRecorder klogLines calls k).badConfigUpdates + 1)]) ∧
        (runCalls unmarshal (NewSelector logRecorder klogLines) calls).okConfigUpdates =
          (calls.countP (fun c => (configState unmarshal c.1).isLoaded) : Nat) ∧
        (runCalls unmarshal (NewSelector logRecorder klogLines) calls).badConfigUpdates =
          (calls.countP (fun c => (configState unmarshal c.1).isParseFailed) : Nat)) := by
  constructor
  · intro k hk
    rw [selectorAfter_succ unmarshal logRecorder klogLines calls k hk]
    obtain ⟨g1, g2⟩ := run_counters unmarshal (calls.get ⟨k, hk⟩).1
      (selectorAfter unmarshal logRecorder klogLines calls k) (calls.get ⟨k, hk⟩).2
    rw [g1, g2]
    cases configState unmarshal (calls.get ⟨k, hk⟩).1 <;>
      simp [ConfigState.isLoaded, ConfigState.isParseFailed]
  · intro hok hbad
    have hpre := selectorAfter_counters unmarshal logRecorder klogLines calls hok hbad
    refine ⟨?_, ?_, ?_, ?_⟩
    · intro j k hjk
      rw [(hpre j).1, (hpre j).2, (hpre k).1, (hpre k).2]
      have hsub : List.Sublist (calls.take j) (calls.take k) :=
        List.take_sublist_take_left calls hjk
      constructor
      · exact_mod_cast List.Sublist.countP_le _ hsub
      · exact_mod_cast List.Sublist.countP_le _ hsub
    · intro k hk
      rw [(hpre (k + 1)).1, (hpre (k + 1)).2, (hpre k).1, (hpre k).2]
      rw [List.take_succ, List.countP_append, List.countP_append]
      simp only [List.getElem?_eq_getElem hk, Option.toList, List.countP_cons,
        List.countP_nil]
      have hexcl := not_loaded_and_failed (configState unmarshal calls[k].1)
      by_cases h1 : (configState unmarshal calls[k].1).isLoaded = true
      · have h2 : (configState unmarshal calls[k].1).isParseFailed = false := by
          cases h : (configState unmarshal calls[k].1).isParseFailed
          · rfl
          · exact absurd ⟨h1, h⟩ hexcl
        simp [h1, h2]
      · by_cases h2 : (configState unmarshal calls[k].1).isParseFailed = true
        · simp [h1, h2]
        · simp [h1, h2]
    · have h := hpre calls.length
      unfold selectorAfter at h
      rw [List.take_length] at h
      exact h.1
    · have h := hpre calls.length
      unfold selectorAfter at h
      rw [List.take_length] at h
      exact h.2

/-- C9, amended, on five calls: the object is missing, the text is
malformed, the text is `A: [B, C]`, the key is absent, the text is `A: [X]`;
the counters end at `(2, 1)`. -/
theorem C9_witness :
    (runCalls yamlTable (NewSelector [] [])
        [(listerEmpty, Call.getAlternativeNodeGroups "A"),
          (listerOf (cmWith "not: [valid, yaml: broken"), Call.getAlternativeOptions [] none),
          (listerOf (cmWith "A: [B, C]"), Call.getAlternativeNodeGroups "A"),
          (listerOf cmNoKey, Call.getAlternativeNodeGroups "A"),
          (listerOf (cmWith "A: [X]"),
            Call.getAlternativeOptions [opt "X" 1] (some (opt "A" 0)))]).okConfigUpdates = 2 ∧
      (runCalls yamlTable (NewSelector [] [])
        [(listerEmpty, Call.getAlternativeNodeGroups "A"),
          (listerOf (cmWith "not: [valid, yaml: broken"), Call.getAlternativeOptions [] none),
          (listerOf (cmWith "A: [B, C]"), Call.getAlternativeNodeGroups "A"),
          (listerOf cmNoKey, Call.getAlternativeNodeGroups "A"),
          (listerOf (cmWith "A: [X]"),
            Call.getAlternativeOptions [opt "X" 1] (some (opt "A" 0)))]).badConfigUpdates = 1 :=
  ⟨((C9_counters_count_outcomes yamlTable [] []
      [(listerEmpty, Call.getAlternativeNodeGroups "A"),
        (listerOf (cmWith "not: [valid, yaml: broken"), Call.getAlternativeOptions [] none),
        (listerOf (cmWith "A: [B, C]"), Call.getAlternativeNodeGroups "A"),
        (listerOf cmNoKey, Call.getAlternativeNodeGroups "A"),
        (listerOf (cmWith "A: [X]"),
          Call.getAlternativeOptions [opt "X" 1] (some (opt "A" 0)))]).2
      (by decide) (by decide)).2.2.1.trans (by decide),
    ((C9_counters_count_outcomes yamlTable [] []
      [(listerEmpty, Call.getAlternativeNodeGroups "A"),
        (listerOf (cmWith "not: [valid, yaml: broken"), Call.getAlternativeOptions [] none),
        (listerOf (cmWith "A: [B, C]"), Call.getAlternativeNodeGroups "A"),
        (listerOf cmNoKey, Call.getAlternativeNodeGroups "A"),
        (listerOf (cmWith "A: [X]"),
          Call.getAlternativeOptions [opt "X" 1] (some (opt "A" 0)))]).2
      (by decide) (by decide)).2.2.2.trans (by decide)⟩


/-! ## C10: the warning events -/

/-- C10: with the recorder as the list of the events it received, a call of
either public operation appends exactly one event, a warning carrying the
fetched ConfigMap, the reason `AlternativesConfigMapInvalid` and a message
that embeds the parse error, when the data key is present and its text fails
to parse; it appends no event when the object is missing, when the key is
absent and when the text parses; so one event is appended if and only if the
key is present and its text is empty or malformed. -/
theorem C10_warning_event_iff_parse_failure [IntWidth] (unmarshal : Unmarshal)
    (lister : ConfigMapLister) (as : alternativeSelector) (call : Call) :
    (∀ cm raw err, lister AlternativesConfigMapName = Except.ok cm →
        cm.Data.lookup AlternativesConfigMapKey = some raw →
        (parseAlternativesYAMLString unmarshal as raw).1 = Except.error err →
        (call.run unmarshal lister as).logRecorder =
          as.logRecorder ++
            [{ object := cm, eventtype := "Warning", reason := "AlternativesConfigMapInvalid",
               message := "Wrong configuration for alternatives in alternatives selector: " ++
                 err ++ ". Ignoring update." }]) ∧
      (∀ err, lister AlternativesConfigMapName = Except.error err →
        (call.run unmarshal lister as).logRecorder = as.logRecorder) ∧
      (∀ cm, lister AlternativesConfigMapName = Except.ok cm →
        cm.Data.lookup AlternativesConfigMapKey = none →
        (call.run unmarshal lister as).logRecorder = as.logRecorder) ∧
      (∀ cm raw m, lister AlternativesConfigMapName = Except.ok cm →
        cm.Data.lookup AlternativesConfigMapKey = some raw →
        (parseAlternativesYAMLString unmarshal as raw).1 = Except.ok m →
        (call.run unmarshal lister as).logRecorder = as.logRecorder) ∧
      ((∃ ev, (call.run unmarshal lister as).logRecorder = as.logRecorder ++ [ev]) ↔
        ∃ cm raw, lister AlternativesConfigMapName = Except.ok cm ∧
          cm.Data.lookup AlternativesConfigMapKey = some raw ∧
          (raw = "" ∨ ∃ err, unmarshal raw = Except.error err)) := by
  have hfail : ∀ cm raw err, lister AlternativesConfigMapName = Except.ok cm →
      cm.Data.lookup AlternativesConfigMapKey = some raw →
      (parseAlternativesYAMLString unmarshal as raw).1 = Except.error err →
      (call.run unmarshal lister as).logRecorder =
        as.logRecorder ++
          [{ object := cm, eventtype := "Warning", reason := "AlternativesConfigMapInvalid",
             message := "Wrong configuration for alternatives in alternatives selector: " ++
               err ++ ". Ignoring update." }] := by
    intro cm raw err hget hkey hparse
    rw [run_parseError unmarshal lister as call cm raw err hget hkey hparse]
    rfl
  have hmiss : ∀ err, lister AlternativesConfigMapName = Except.error err →
      (call.run unmarshal lister as).logRecorder = as.logRecorder := by
    intro err hget
    rw [run_missing unmarshal lister as call err hget]
  have habs : ∀ cm, lister AlternativesConfigMapName = Except.ok cm →
      cm.Data.lookup AlternativesConfigMapKey = none →
      (call.run unmarshal lister as).logRecorder = as.logRecorder := by
    intro cm hget hkey
    rw [run_keyAbsent unmarshal lister as call cm hget hkey]
  have hok : ∀ cm raw m, lister AlternativesConfigMapName = Except.ok cm →
      cm.Data.lookup AlternativesConfigMapKey = some raw →
      (parseAlternativesYAMLString unmarshal as raw).1 = Except.ok m →
      (call.run unmarshal lister as).logRecorder = as.logRecorder := by
    intro cm raw m hget hkey hparse
    rw [run_parseOk unmarshal lister as call cm raw m hget hkey hparse]
  refine ⟨hfail, hmiss, habs, hok, ?_, ?_⟩
  · rintro ⟨ev, hev⟩
    rcases config_cases unmarshal lister as with
      ⟨err, hget⟩ | ⟨cm, hget, hkey⟩ | ⟨cm, raw, err, hget, hkey, hparse⟩ |
        ⟨cm, raw, m, hget, hkey, hparse⟩
    · rw [hmiss err hget] at hev
      simp at hev
    · rw [habs cm hget hkey] at hev
      simp at hev
    · exact ⟨cm, raw, hget, hkey, (parse_fails_iff unmarshal as raw).1 ⟨err, hparse⟩⟩
    · rw [hok cm raw m hget hkey hparse] at hev
      simp at hev
  · rintro ⟨cm, raw, hget, hkey, hbad⟩
    obtain ⟨err, hparse⟩ := (parse_fails_iff unmarshal as raw).2 hbad
    exact ⟨_, hfail cm raw err hget hkey hparse⟩

/-- C10 at the empty text: the one event appended carries the ConfigMap, the
reason and the message with the error of the parser. -/
theorem C10_witness :
    (Call.run yamlTable (listerOf (cmWith "")) sel0
        (Call.getAlternativeOptions [opt "B" 1] none)).logRecorder =
      sel0.logRecorder ++
        [{ object := cmWith "", eventtype := "Warning",
           reason := "AlternativesConfigMapInvalid",
           message := "Wrong configuration for alternatives in alternatives selector: " ++
             emptyConfigError ++ ". Ignoring update." }] :=
  (C10_warning_event_iff_parse_failure yamlTable (listerOf (cmWith "")) sel0
    (Call.getAlternativeOptions [opt "B" 1] none)).1 (cmWith "") "" emptyConfigError
    rfl rfl rfl

/-! ## Lemmas on the walk of the configured list -/

theorem mem_firstMatches (L : List String) (options : List expander.Option)
    (o : expander.Option) :
    o ∈ firstMatches L options ↔
      ∃ a, a ∈ L ∧ options.find? (fun x => x.NodeGroup.Id == a) = some o := by
  simp [firstMatches]

theorem firstMatches_sound (L : List String) (options : List expander.Option)
    (o : expander.Option) (ho : o ∈ firstMatches L options) :
    o ∈ options ∧ o.NodeGroup.Id ∈ L := by
  obtain ⟨a, ha, hf⟩ := (mem_firstMatches L options o).1 ho
  have hid : o.NodeGroup.Id = a := by simpa using List.find?_some hf
  exact ⟨List.mem_of_find?_eq_some hf, hid ▸ ha⟩

theorem find_isSome_iff (options : List expander.Option) (a : String) :
    (options.find? (fun x => x.NodeGroup.Id == a)).isSome = true ↔
      ∃ o, o ∈ options ∧ o.NodeGroup.Id = a := by
  simp

theorem firstMatches_ids (L : List String) (options : List expander.Option) :
    (firstMatches L options).map (fun o => o.NodeGroup.Id) =
      L.filter (fun a => decide (∃ o, o ∈ options ∧ o.NodeGroup.Id = a)) := by
  induction L with
  | nil => rfl
  | cons a L ih =>
    have ih1 : List.map (fun o => o.NodeGroup.Id)
        (List.filterMap (fun a => options.find? (fun o => o.NodeGroup.Id == a)) L) =
        L.filter (fun a => decide (∃ o, o ∈ options ∧ o.NodeGroup.Id = a)) := ih
    cases hf : options.find? (fun x => x.NodeGroup.Id == a) with
    | none =>
      have hno : ¬ ∃ o, o ∈ options ∧ o.NodeGroup.Id = a := by
        intro h
        have := (find_isSome_iff options a).2 h
        rw [hf] at this
        cases this
      simp only [firstMatches, List.filterMap_cons, hf, List.filter_cons, hno, decide_False]
      simpa using ih1
    | some o =>
      have hid : o.NodeGroup.Id = a := by simpa using List.find?_some hf
      have hyes : ∃ o, o ∈ options ∧ o.NodeGroup.Id = a :=
        ⟨o, List.mem_of_find?_eq_some hf, hid⟩
      simp only [firstMatches, List.filterMap_cons, hf, List.filter_cons, hyes, decide_True,
        List.map_cons, hid]
      simpa using ih1

theorem firstMatches_length_le (L : List String) (options : List expander.Option) :
    (firstMatches L options).length ≤ L.length := by
  unfold firstMatches
  exact List.length_filterMap_le _ L

theorem firstMatches_copies (L : List String) (options : List expander.Option)
    (a : String) (o : expander.Option)
    (hf : options.find? (fun x => x.NodeGroup.Id == a) = some o) :
    (firstMatches L options).filter (fun x => x.NodeGroup.Id == a) =
      List.replicate (L.count a) o := by
  have hid : o.NodeGroup.Id = a := by simpa using List.find?_some hf
  induction L with
  | nil => rfl
  | cons b L ih =>
    have ih1 : List.filter (fun x => x.NodeGroup.Id == a)
        (List.filterMap (fun a => options.find? (fun o => o.NodeGroup.Id == a)) L) =
        List.replicate (L.count a) o := ih
    by_cases hba : b = a
    · subst hba
      simp only [firstMatches, List.filterMap_cons, hf, List.filter_cons, hid, beq_self_eq_true,
        if_true, List.count_cons_self, List.replicate_succ]
      rw [ih1]
    · have hcount : (b :: L).count a = L.count a := by
        rw [List.count_cons_of_ne (Ne.symm hba)]
      rw [hcount]
      cases hg : options.find? (fun x => x.NodeGroup.Id == b) with
      | none =>
        simp only [firstMatches, List.filterMap_cons, hg]
        exact ih1
      | some o2 =>
        have hid2 : o2.NodeGroup.Id = b := by simpa using List.find?_some hg
        have hne : (o2.NodeGroup.Id == a) = false := by
          rw [hid2]
          simpa using hba
        simp only [firstMatches, List.filterMap_cons, hg, List.filter_cons, hne]
        simpa using ih1

theorem firstMatches_eq_nil (L : List String) (options : List expander.Option)
    (hno : ∀ o, o ∈ options → o.NodeGroup.Id ∉ L) : firstMatches L options = [] := by
  cases h : firstMatches L options with
  | nil => rfl
  | cons o rest =>
    have ho : o ∈ firstMatches L options := by rw [h]; exact List.mem_cons_self o rest
    obtain ⟨h1, h2⟩ := firstMatches_sound L options o ho
    exact absurd h2 (hno o h1)

/-! ## The results as functions of the stored configuration alone -/

theorem parse_result_indep [IntWidth] (unmarshal : Unmarshal) (p q : alternativeSelector) (raw : String) :
    (parseAlternativesYAMLString unmarshal p raw).1 =
      (parseAlternativesYAMLString unmarshal q raw).1 := by
  unfold parseAlternativesYAMLString
  by_cases hne : raw = ""
  · simp [hne]
  · cases hu : unmarshal raw <;> simp [hne]

/-- The value returned by `GetAlternativeOptions`, by the state of the stored
configuration. -/
theorem options_result_eq [IntWidth] (unmarshal : Unmarshal) (lister : ConfigMapLister)
    (as : alternativeSelector) (options : List expander.Option)
    (best : Option expander.Option) :
    (GetAlternativeOptions unmarshal lister as options best).1 =
      match configState unmarshal lister with
      | ConfigState.loaded _ m =>
        (match best with
          | none => []
          | some b =>
            match m.lookup b.NodeGroup.Id with
            | none => []
            | some L => firstMatches L options)
      | _ => [] := by
  unfold configState
  cases hget : lister AlternativesConfigMapName with
  | error err => simp [options_missing unmarshal lister as options best err hget]
  | ok cm =>
    cases hkey : cm.Data.lookup AlternativesConfigMapKey with
    | none => simp [hkey, options_keyAbsent unmarshal lister as options best cm hget hkey]
    | some raw =>
      by_cases hne : raw = ""
      · have hparse : (parseAlternativesYAMLString unmarshal as raw).1 =
            Except.error emptyConfigError := by rw [hne, parse_empty]
        simp [hkey, hne,
          options_parseError unmarshal lister as options best cm raw _ hget hkey hparse]
      · cases hu : unmarshal raw with
        | error e =>
          have hparse : (parseAlternativesYAMLString unmarshal as raw).1 =
              Except.error (malformedConfigError e) := by
            rw [parse_unmarshal_error unmarshal as raw e hne hu]
          simp [hkey, hu, hne,
            options_parseError unmarshal lister as options best cm raw _ hget hkey hparse]
        | ok m =>
          have hparse : (parseAlternativesYAMLString unmarshal as raw).1 = Except.ok m := by
            rw [parse_unmarshal_ok unmarshal as raw m hne hu]
          simp [hkey, hu, hne,
            options_parseOk unmarshal lister as options best cm raw m hget hkey hparse]

/-- The value returned by `GetAlternativeNodeGroups`, by the state of the
stored configuration. -/
theorem nodeGroups_result_eq [IntWidth] (unmarshal : Unmarshal) (lister : ConfigMapLister)
    (as : alternativeSelector) (g : String) :
    (GetAlternativeNodeGroups unmarshal lister as g).1 =
      match configState unmarshal lister with
      | ConfigState.loaded _ m => (m.lookup g).getD []
      | _ => [] := by
  unfold configState
  cases hget : lister AlternativesConfigMapName with
  | error err => simp [nodeGroups_missing unmarshal lister as g err hget]
  | ok cm =>
    cases hkey : cm.Data.lookup AlternativesConfigMapKey with
    | none => simp [hkey, nodeGroups_keyAbsent unmarshal lister as g cm hget hkey]
    | some raw =>
      by_cases hne : raw = ""
      · have hparse : (parseAlternativesYAMLString unmarshal as raw).1 =
            Except.error emptyConfigError := by rw [hne, parse_empty]
        simp [hkey, hne, nodeGroups_parseError unmarshal lister as g cm raw _ hget hkey hparse]
      · cases hu : unmarshal raw with
        | error e =>
          have hparse : (parseAlternativesYAMLString unmarshal as raw).1 =
              Except.error (malformedConfigError e) := by
            rw [parse_unmarshal_error unmarshal as raw e hne hu]
          simp [hkey, hu, hne,
            nodeGroups_parseError unmarshal lister as g cm raw _ hget hkey hparse]
        | ok m =>
          have hparse : (parseAlternativesYAMLString unmarshal as raw).1 = Except.ok m := by
            rw [parse_unmarshal_ok unmarshal as raw m hne hu]
          simp [hkey, hu, hne, nodeGroups_parseOk unmarshal lister as g cm raw m hget hkey hparse]

theorem options_result_indep [IntWidth] (unmarshal : Unmarshal) (lister : ConfigMapLister)
    (p q : alternativeSelector) (options : List expander.Option)
    (best : Option expander.Option) :
    (GetAlternativeOptions unmarshal lister p options best).1 =
      (GetAlternativeOptions unmarshal lister q options best).1 := by
  rw [options_result_eq, options_result_eq]

theorem nodeGroups_result_indep [IntWidth] (unmarshal : Unmarshal) (lister : ConfigMapLister)
    (p q : alternativeSelector) (g : String) :
    (GetAlternativeNodeGroups unmarshal lister p g).1 =
      (GetAlternativeNodeGroups unmarshal lister q g).1 := by
  rw [nodeGroups_result_eq, nodeGroups_result_eq]

/-- A non-empty answer of `GetAlternativeOptions` comes from a parsed
configuration that has the group of `best` as a key. -/
theorem options_nonempty_source [IntWidth] (unmarshal : Unmarshal) (lister : ConfigMapLister)
    (as : alternativeSelector) (options : List expander.Option) (best : expander.Option)
    (hne : (GetAlternativeOptions unmarshal lister as options (some best)).1 ≠ []) :
    ∃ cm raw m L, lister AlternativesConfigMapName = Except.ok cm ∧
      cm.Data.lookup AlternativesConfigMapKey = some raw ∧
      (parseAlternativesYAMLString unmarshal as raw).1 = Except.ok m ∧
      m.lookup best.NodeGroup.Id = some L ∧
      (GetAlternativeOptions unmarshal lister as options (some best)).1 =
        firstMatches L options := by
  rcases config_cases unmarshal lister as with
    ⟨err, hget⟩ | ⟨cm, hget, hkey⟩ | ⟨cm, raw, err, hget, hkey, hparse⟩ |
      ⟨cm, raw, m, hget, hkey, hparse⟩
  · rw [options_missing unmarshal lister as options _ err hget] at hne
    exact absurd rfl hne
  · rw [options_keyAbsent unmarshal lister as options _ cm hget hkey] at hne
    exact absurd rfl hne
  · rw [options_parseError unmarshal lister as options _ cm raw err hget hkey hparse] at hne
    exact absurd rfl hne
  · have hres := options_parseOk unmarshal lister as options (some best) cm raw m hget hkey hparse
    cases hL : m.lookup best.NodeGroup.Id with
    | none =>
      rw [hres] at hne
      simp [hL] at hne
    | some L =>
      refine ⟨cm, raw, m, L, hget, hkey, hparse, hL, ?_⟩
      rw [hres]
      simp [hL]

/-! ## C11 to C13: which options are returned -/

/-- C11: every option returned by `GetAlternativeOptions` for a present best
is an element of the supplied options, and its group id occurs in the list
that the parsed configuration gives for the group id of `best`; so no option
with a group id outside that list is returned. -/
theorem C11_returned_options_are_configured [IntWidth] (unmarshal : Unmarshal)
    (lister : ConfigMapLister) (as : alternativeSelector) (options : List expander.Option)
    (best o : expander.Option)
    (ho : o ∈ (GetAlternativeOptions unmarshal lister as options (some best)).1) :
    o ∈ options ∧
      (∃ cm raw m L, lister AlternativesConfigMapName = Except.ok cm ∧
        cm.Data.lookup AlternativesConfigMapKey = some raw ∧
        (parseAlternativesYAMLString unmarshal as raw).1 = Except.ok m ∧
        m.lookup best.NodeGroup.Id = some L ∧ o.NodeGroup.Id ∈ L) ∧
      (∀ cm raw m L, lister AlternativesConfigMapName = Except.ok cm →
        cm.Data.lookup AlternativesConfigMapKey = some raw →
        (parseAlternativesYAMLString unmarshal as raw).1 = Except.ok m →
        m.lookup best.NodeGroup.Id = some L → o.NodeGroup.Id ∈ L) := by
  have hne : (GetAlternativeOptions unmarshal lister as options (some best)).1 ≠ [] :=
    List.ne_nil_of_mem ho
  obtain ⟨cm, raw, m, L, hget, hkey, hparse, hL, hres⟩ :=
    options_nonempty_source unmarshal lister as options best hne
  rw [hres] at ho
  obtain ⟨h1, h2⟩ := firstMatches_sound L options o ho
  refine ⟨h1, ⟨cm, raw, m, L, hget, hkey, hparse, hL, h2⟩, ?_⟩
  intro cm2 raw2 m2 L2 hget2 hkey2 hparse2 hL2
  have hcm : cm2 = cm := by
    rw [hget] at hget2
    injection hget2 with h
    exact h.symm
  subst hcm
  have hraw : raw2 = raw := by
    rw [hkey] at hkey2
    injection hkey2 with h
    exact h.symm
  subst hraw
  have hm : m2 = m := by
    rw [hparse] at hparse2
    injection hparse2 with h
    exact h.symm
  subst hm
  have hLL : L2 = L := by
    rw [hL] at hL2
    injection hL2 with h
    exact h.symm
  subst hLL
  exact h2

/-- C11 at the configuration `A: [B, C]` with options `C, B, D, B` and best
`A`: the first option for `B` is returned, it is among the options, and `B`
is in the configured list. -/
theorem C11_witness :
    opt "B" 2 ∈ (GetAlternativeOptions yamlTable (listerOf (cmWith "A: [B, C]")) sel0
        [opt "C" 1, opt "B" 2, opt "D" 3, opt "B" 4] (some (opt "A" 0))).1 ∧
      opt "B" 2 ∈ [opt "C" 1, opt "B" 2, opt "D" 3, opt "B" 4] ∧
      (opt "B" 2).NodeGroup.Id ∈ ["B", "C"] :=
  let h := C11_returned_options_are_configured yamlTable (listerOf (cmWith "A: [B, C]")) sel0
    [opt "C" 1, opt "B" 2, opt "D" 3, opt "B" 4] (opt "A" 0) (opt "B" 2) (by decide)
  ⟨by decide, h.1,
    h.2.2 (cmWith "A: [B, C]") "A: [B, C]" [("A", ["B", "C"])] ["B", "C"] rfl rfl rfl rfl⟩

/-- C12: when the configuration parses to a mapping that does not have the
group id of `best` as a key, `GetAlternativeOptions` returns the empty
sequence, whatever the options are. -/
theorem C12_best_not_a_key [IntWidth] (unmarshal : Unmarshal) (lister : ConfigMapLister)
    (as : alternativeSelector) (options : List expander.Option) (best : expander.Option)
    (cm : apiv1.ConfigMap) (raw : String) (m : alternatives)
    (hget : lister AlternativesConfigMapName = Except.ok cm)
    (hkey : cm.Data.lookup AlternativesConfigMapKey = some raw)
    (hparse : (parseAlternativesYAMLString unmarshal as raw).1 = Except.ok m)
    (hL : m.lookup best.NodeGroup.Id = none) :
    (GetAlternativeOptions unmarshal lister as options (some best)).1 = [] := by
  rw [options_parseOk unmarshal lister as options (some best) cm raw m hget hkey hparse]
  simp [hL]

/-- C12 at the configuration `A: [B, C]` with best `B`, an alternative of
`A` that is no key, and options for `B`, `A` and `C`. -/
theorem C12_witness :
    (GetAlternativeOptions yamlTable (listerOf (cmWith "A: [B, C]")) sel0
        [opt "B" 1, opt "A" 2, opt "C" 3] (some (opt "B" 1))).1 = [] :=
  C12_best_not_a_key yamlTable (listerOf (cmWith "A: [B, C]")) sel0
    [opt "B" 1, opt "A" 2, opt "C" 3] (opt "B" 1) (cmWith "A: [B, C]") "A: [B, C]"
    [("A", ["B", "C"])] rfl rfl rfl rfl

/-- C13: when the configuration parses and gives the list `L` for the group
id of `best`, and no option has a group id that occurs in `L`,
`GetAlternativeOptions` returns the empty sequence. -/
theorem C13_no_matching_option [IntWidth] (unmarshal : Unmarshal) (lister : ConfigMapLister)
    (as : alternativeSelector) (options : List expander.Option) (best : expander.Option)
    (cm : apiv1.ConfigMap) (raw : String) (m : alternatives) (L : List String)
    (hget : lister AlternativesConfigMapName = Except.ok cm)
    (hkey : cm.Data.lookup AlternativesConfigMapKey = some raw)
    (hparse : (parseAlternativesYAMLString unmarshal as raw).1 = Except.ok m)
    (hL : m.lookup best.NodeGroup.Id = some L)
    (hno : ∀ o, o ∈ options → o.NodeGroup.Id ∉ L) :
    (GetAlternativeOptions unmarshal lister as options (some best)).1 = [] := by
  rw [options_parseOk unmarshal lister as options (some best) cm raw m hget hkey hparse]
  simp [hL, firstMatches_eq_nil L options hno]

/-- C13 at the configuration `A: [X]` with options for `A`, `B` and `C`. -/
theorem C13_witness :
    (GetAlternativeOptions yamlTable (listerOf (cmWith "A: [X]")) sel0
        [opt "A" 1, opt "B" 2, opt "C" 3] (some (opt "A" 1))).1 = [] :=
  C13_no_matching_option yamlTable (listerOf (cmWith "A: [X]")) sel0
    [opt "A" 1, opt "B" 2, opt "C" 3] (opt "A" 1) (cmWith "A: [X]") "A: [X]"
    [("A", ["X"])] ["X"] rfl rfl rfl rfl (by decide)

/-! ## C14 and C15: independence of earlier calls and of the arguments -/

/-- C14: what a call returns does not depend on the state of the selector:
for any two states, the same answer of the lister and the same arguments,
`GetAlternativeOptions` returns the same sequence, `GetAlternativeNodeGroups`
the same list, and the parser the same mapping or the same error; so a
repeated call under an unchanged configuration returns the same result, and a
call made after a call under another configuration returns what the
configuration of its own time gives. -/
theorem C14_results_independent_of_state [IntWidth] (unmarshal : Unmarshal) (lister : ConfigMapLister)
    (p q : alternativeSelector) :
    (∀ options best,
        (GetAlternativeOptions unmarshal lister p options best).1 =
          (GetAlternativeOptions unmarshal lister q options best).1) ∧
      (∀ g,
        (GetAlternativeNodeGroups unmarshal lister p g).1 =
          (GetAlternativeNodeGroups unmarshal lister q g).1) ∧
      (∀ raw,
        (parseAlternativesYAMLString unmarshal p raw).1 =
          (parseAlternativesYAMLString unmarshal q raw).1) ∧
      (∀ options best,
        (GetAlternativeOptions unmarshal lister
            (GetAlternativeOptions unmarshal lister p options best).2 options best).1 =
          (GetAlternativeOptions unmarshal lister p options best).1) ∧
      (∀ g,
        (GetAlternativeNodeGroups unmarshal lister
            (GetAlternativeNodeGroups unmarshal lister p g).2 g).1 =
          (GetAlternativeNodeGroups unmarshal lister p g).1) ∧
      (∀ (earlier : ConfigMapLister) (call : Call) options best,
        (GetAlternativeOptions unmarshal lister (call.run unmarshal earlier p) options best).1 =
          (GetAlternativeOptions unmarshal lister p options best).1) ∧
      (∀ (earlier : ConfigMapLister) (call : Call) g,
        (GetAlternativeNodeGroups unmarshal lister (call.run unmarshal earlier p) g).1 =
          (GetAlternativeNodeGroups unmarshal lister p g).1) :=
  ⟨fun options best => options_result_indep unmarshal lister p q options best,
    fun g => nodeGroups_result_indep unmarshal lister p q g,
    fun raw => parse_result_indep unmarshal p q raw,
    fun options best => options_result_indep unmarshal lister _ p options best,
    fun g => nodeGroups_result_indep unmarshal lister _ p g,
    fun _ _ options best => options_result_indep unmarshal lister _ p options best,
    fun _ _ g => nodeGroups_result_indep unmarshal lister _ p g⟩

/-- C14 at the configuration `A: [B, C]`: from counters `(5, 7)` with the
malformed text seen by an earlier call, the call returns what it returns on a
fresh selector. -/
theorem C14_witness :
    (GetAlternativeOptions yamlTable (listerOf (cmWith "A: [B, C]"))
        (Call.run yamlTable (listerOf (cmWith "not: [valid, yaml: broken"))
          { sel0 with okConfigUpdates := 5, badConfigUpdates := 7 }
          (Call.getAlternativeNodeGroups "A"))
        [opt "C" 1, opt "B" 2] (some (opt "A" 0))).1 = [opt "B" 2, opt "C" 1] :=
  (((C14_results_independent_of_state yamlTable (listerOf (cmWith "A: [B, C]"))
      { sel0 with okConfigUpdates := 5, badConfigUpdates := 7 } sel0).2.2.2.2.2.1
      (listerOf (cmWith "not: [valid, yaml: broken")) (Call.getAlternativeNodeGroups "A")
      [opt "C" 1, opt "B" 2] (some (opt "A" 0))).trans
    ((C14_results_independent_of_state yamlTable (listerOf (cmWith "A: [B, C]"))
      { sel0 with okConfigUpdates := 5, badConfigUpdates := 7 } sel0).1
      [opt "C" 1, opt "B" 2] (some (opt "A" 0)))).trans (by decide)

/-- C15, as the specification states it, fails when `badConfigUpdates` holds
the largest value of `int`: with `best = nil` and the malformed text the
counter does not become one higher but the smallest value of `int`. -/
theorem C15_counterexample :
    (maxInt : Int) = 9223372036854775807 ∧
      (GetAlternativeOptions yamlTable (listerOf (cmWith "not: [valid, yaml: broken"))
          { sel0 with badConfigUpdates := 9223372036854775807 }
          [opt "B" 1] none).2.badConfigUpdates = -9223372036854775808 ∧
      (GetAlternativeOptions yamlTable (listerOf (cmWith "not: [valid, yaml: broken"))
          { sel0 with badConfigUpdates := 9223372036854775807 }
          [opt "B" 1] none).2.badConfigUpdates ≠ 9223372036854775807 + 1 := by
  refine ⟨by decide, by decide, by decide⟩

/-- C15, amended: `GetAlternativeOptions` reloads the configuration before
it looks at `best`, so the selector after it does not depend on its arguments
and is the selector after `GetAlternativeNodeGroups` under the same stored
configuration; with `best = nil` a malformed or empty text still increments
`badConfigUpdates` once as an `int`, which is one more when the counter is a
value of `int` other than the largest, and appends the warning event, and a
well-formed text still increments `okConfigUpdates` in the same way. -/
theorem C15_effect_independent_of_arguments [IntWidth] (unmarshal : Unmarshal)
    (lister : ConfigMapLister) (as : alternativeSelector) (options : List expander.Option)
    (best : Option expander.Option) :
    (∀ g,
        (GetAlternativeOptions unmarshal lister as options best).2 =
          (GetAlternativeNodeGroups unmarshal lister as g).2) ∧
      (∀ options2 best2,
        (GetAlternativeOptions unmarshal lister as options best).2 =
          (GetAlternativeOptions unmarshal lister as options2 best2).2) ∧
      (∀ cm raw, lister AlternativesConfigMapName = Except.ok cm →
        cm.Data.lookup AlternativesConfigMapKey = some raw →
        (raw = "" ∨ ∃ err, unmarshal raw = Except.error err) →
        (GetAlternativeOptions unmarshal lister as options none).2.badConfigUpdates =
            wrapInt (as.badConfigUpdates + 1) ∧
          (isInt as.badConfigUpdates → as.badConfigUpdates ≠ maxInt →
            (GetAlternativeOptions unmarshal lister as options none).2.badConfigUpdates =
              as.badConfigUpdates + 1) ∧
          ∃ err, (GetAlternativeOptions unmarshal lister as options none).2.logRecorder =
            as.logRecorder ++
              [{ object := cm, eventtype := "Warning",
                 reason := "AlternativesConfigMapInvalid",
                 message := wrongConfigMessage err }]) ∧
      (∀ cm raw m, lister AlternativesConfigMapName = Except.ok cm →
        cm.Data.lookup AlternativesConfigMapKey = some raw →
        raw ≠ "" → unmarshal raw = Except.ok m →
        (GetAlternativeOptions unmarshal lister as options none).2.okConfigUpdates =
            wrapInt (as.okConfigUpdates + 1) ∧
          (isInt as.okConfigUpdates → as.okConfigUpdates ≠ maxInt →
            (GetAlternativeOptions unmarshal lister as options none).2.okConfigUpdates =
              as.okConfigUpdates + 1)) := by
  have hrun : ∀ (c d : Call), c.run unmarshal lister as = d.run unmarshal lister as := by
    intro c d
    rw [run_eq unmarshal lister as c, run_eq unmarshal lister as d]
  refine ⟨?_, ?_, ?_, ?_⟩
  · intro g
    exact hrun (Call.getAlternativeOptions options best) (Call.getAlternativeNodeGroups g)
  · intro options2 best2
    exact hrun (Call.getAlternativeOptions options best)
      (Call.getAlternativeOptions options2 best2)
  · intro cm raw hget hkey hbad
    obtain ⟨err, hparse⟩ := (parse_fails_iff unmarshal as raw).2 hbad
    rw [options_parseError unmarshal lister as options none cm raw err hget hkey hparse]
    refine ⟨rfl, ?_, err, rfl⟩
    intro hint hmax
    exact wrapInt_succ as.badConfigUpdates hint hmax
  · intro cm raw m hget hkey hne hu
    have hparse := (parse_ok_iff unmarshal as raw m).2 ⟨hne, hu⟩
    rw [options_parseOk unmarshal lister as options none cm raw m hget hkey hparse]
    refine ⟨rfl, ?_⟩
    intro hint hmax
    exact wrapInt_succ as.okConfigUpdates hint hmax

/-- C15, amended, at the malformed text with `best = nil` from counters
`(5, 7)`: `badConfigUpdates` becomes 8. -/
theorem C15_witness :
    (GetAlternativeOptions yamlTable (listerOf (cmWith "not: [valid, yaml: broken"))
        { sel0 with okConfigUpdates := 5, badConfigUpdates := 7 }
        [opt "B" 1] none).2.badConfigUpdates = 7 + 1 :=
  ((C15_effect_independent_of_arguments yamlTable
      (listerOf (cmWith "not: [valid, yaml: broken"))
      { sel0 with okConfigUpdates := 5, badConfigUpdates := 7 } [opt "B" 1] none).2.2.1
    (cmWith "not: [valid, yaml: broken") "not: [valid, yaml: broken" rfl rfl
    (Or.inr ⟨_, rfl⟩)).2.1 (by decide) (by decide)

/-! ## C16: the group ids of the returned options -/

/-- C16: when the configuration parses and gives the list `L` for the group
id of `best`, the group ids of the returned options are `L` without the
identifiers that are the group id of no option, in the order and with the
multiplicity of `L`; the result is no longer than `L`; and an identifier that
occurs `k` times in `L` and has a first matching option contributes that
option `k` times. -/
theorem C16_ids_are_filtered_list [IntWidth] (unmarshal : Unmarshal) (lister : ConfigMapLister)
    (as : alternativeSelector) (options : List expander.Option) (best : expander.Option)
    (cm : apiv1.ConfigMap) (raw : String) (m : alternatives) (L : List String)
    (hget : lister AlternativesConfigMapName = Except.ok cm)
    (hkey : cm.Data.lookup AlternativesConfigMapKey = some raw)
    (hparse : (parseAlternativesYAMLString unmarshal as raw).1 = Except.ok m)
    (hL : m.lookup best.NodeGroup.Id = some L) :
    (GetAlternativeOptions unmarshal lister as options (some best)).1.map
        (fun o => o.NodeGroup.Id) =
        L.filter (fun a => decide (∃ o, o ∈ options ∧ o.NodeGroup.Id = a)) ∧
      (GetAlternativeOptions unmarshal lister as options (some best)).1.length ≤ L.length ∧
      (∀ a o, options.find? (fun x => x.NodeGroup.Id == a) = some o →
        (GetAlternativeOptions unmarshal lister as options (some best)).1.filter
            (fun x => x.NodeGroup.Id == a) =
          List.replicate (L.count a) o) := by
  have hres : (GetAlternativeOptions unmarshal lister as options (some best)).1 =
      firstMatches L options := by
    rw [options_parseOk unmarshal lister as options (some best) cm raw m hget hkey hparse]
    simp [hL]
  rw [hres]
  exact ⟨firstMatches_ids L options, firstMatches_length_le L options,
    fun a o hf => firstMatches_copies L options a o hf⟩

/-- C16 at the configuration `A: [B, B]` with options `C, B, B`: the ids of
the result are `B, B`, and the first option for `B` is returned twice. -/
theorem C16_witness :
    (GetAlternativeOptions yamlTable (listerOf (cmWith "A: [B, B]")) sel0
          [opt "C" 1, opt "B" 2, opt "B" 3] (some (opt "A" 0))).1.map
        (fun o => o.NodeGroup.Id) = ["B", "B"] ∧
      (GetAlternativeOptions yamlTable (listerOf (cmWith "A: [B, B]")) sel0
          [opt "C" 1, opt "B" 2, opt "B" 3] (some (opt "A" 0))).1.filter
        (fun x => x.NodeGroup.Id == "B") = [opt "B" 2, opt "B" 2] :=
  ⟨(C16_ids_are_filtered_list yamlTable (listerOf (cmWith "A: [B, B]")) sel0
      [opt "C" 1, opt "B" 2, opt "B" 3] (opt "A" 0) (cmWith "A: [B, B]") "A: [B, B]"
      [("A", ["B", "B"])] ["B", "B"] rfl rfl rfl rfl).1.trans (by decide),
    ((C16_ids_are_filtered_list yamlTable (listerOf (cmWith "A: [B, B]")) sel0
      [opt "C" 1, opt "B" 2, opt "B" 3] (opt "A" 0) (cmWith "A: [B, B]") "A: [B, B]"
      [("A", ["B", "B"])] ["B", "B"] rfl rfl rfl rfl).2.2 "B" (opt "B" 2) rfl).trans
      (by decide)⟩
